import Mathlib

set_option maxRecDepth 40000

/-!
Shallow embedding of the `delivery` repository: the folder/file scaffold
generators `test.py` (namespace `TestPy`) and
`create_sample_teams_structure.py` (namespace `CstsPy`).

Filesystem effects are modelled as an explicit list of operations (`Op`)
emitted by the (otherwise pure) generator, together with a functional
filesystem state (`FS`) on which the operations act.  Paths are lists of
segments, mirroring `pathlib.Path` joins.
-/

/-- A Gregorian calendar date, mirroring Python `datetime.date`. -/
structure PyDate where
  year : Nat
  month : Nat
  day : Nat
deriving DecidableEq, Repr

/-- Leap-year rule of the proleptic Gregorian calendar used by `datetime`. -/
def isLeap (y : Nat) : Bool :=
  y % 4 == 0 && (y % 100 != 0 || y % 400 == 0)

/-- Number of days of month `m` of year `y`. -/
def daysInMonth (y m : Nat) : Nat :=
  if m == 2 then (if isLeap y then 29 else 28)
  else if m == 4 || m == 6 || m == 9 || m == 11 then 30
  else 31

/-- One day earlier: `d - datetime.timedelta(days=1)`. -/
def predDay (d : PyDate) : PyDate :=
  if d.day > 1 then ⟨d.year, d.month, d.day - 1⟩
  else if d.month > 1 then ⟨d.year, d.month - 1, daysInMonth d.year (d.month - 1)⟩
  else ⟨d.year - 1, 12, 31⟩

/-- `d - datetime.timedelta(days=n)`. -/
def subDays (d : PyDate) : Nat → PyDate
  | 0 => d
  | n + 1 => subDays (predDay d) n

/-- Zero-padded two-digit decimal (`%m`, `%d`). -/
def pad2 (n : Nat) : String :=
  if n < 10 then "0" ++ toString n else toString n

/-- Zero-padded four-digit decimal (`%Y`). -/
def pad4 (n : Nat) : String :=
  if n < 10 then "000" ++ toString n
  else if n < 100 then "00" ++ toString n
  else if n < 1000 then "0" ++ toString n
  else toString n

/-- Python `date.strftime("%Y%m%d")`. -/
def fmtYmd (d : PyDate) : String :=
  pad4 d.year ++ pad2 d.month ++ pad2 d.day

/-- Observable content of a filesystem entry produced by the scripts:
a directory, a saved workbook (a list of cell/value pairs), a plain-text
fallback file, or an empty file created by `Path.touch()`. -/
inductive Entry where
  | dir : Entry
  | excel (cells : List (String × String)) : Entry
  | text (s : String) : Entry
  | emptyFile : Entry
deriving DecidableEq, Repr

/-- One filesystem operation performed by the scripts:
`mkdir(exist_ok=True)`, `wb.save` / `open(...).write` (an overwrite),
or `Path.touch()`. -/
inductive Op where
  | mkdir (p : List String) : Op
  | write (p : List String) (e : Entry) : Op
  | touch (p : List String) : Op
deriving DecidableEq, Repr

/-- The path an operation acts on. -/
def Op.target : Op → List String
  | .mkdir p => p
  | .write p _ => p
  | .touch p => p

/-- All paths produced (created or overwritten) by a list of operations. -/
def producedPaths (ops : List Op) : List (List String) :=
  ops.map Op.target

/-- Targets of the directory-creation operations in a list. -/
def dirTargets (ops : List Op) : List (List String) :=
  ops.filterMap (fun op => match op with | Op.mkdir p => some p | _ => none)

/-- A filesystem state: a partial map from paths to entries. -/
def FS : Type := List String → Option Entry

/-- The empty filesystem. -/
def emptyFS : FS := fun _ => none

/-- Apply one operation.  `mkdir(exist_ok=True)` and `touch()` keep an
existing entry and create one only when the path is absent; a write
overwrites unconditionally. -/
def applyOp (fs : FS) (op : Op) : FS :=
  match op with
  | .mkdir p => fun q => if q = p then some ((fs q).getD Entry.dir) else fs q
  | .write p e => fun q => if q = p then some e else fs q
  | .touch p => fun q => if q = p then some ((fs q).getD Entry.emptyFile) else fs q

/-- Apply a list of operations in order. -/
def applyOps (fs : FS) (ops : List Op) : FS :=
  ops.foldl applyOp fs

/-- Summary of the effect of a chain of operations on one fixed path:
no effect, "create with default `e` when absent", or "overwrite with `e`". -/
inductive Eff where
  | skip : Eff
  | ensure (e : Entry) : Eff
  | put (e : Entry) : Eff

/-- Run an effect summary on the entry currently stored at the path. -/
def Eff.runOn : Eff → Option Entry → Option Entry
  | .skip, x => x
  | .ensure e, x => some (x.getD e)
  | .put e, _ => some e

/-- The effect of a single operation on the path `q`. -/
def effAt (op : Op) (q : List String) : Eff :=
  match op with
  | .mkdir p => if q = p then .ensure Entry.dir else .skip
  | .write p e => if q = p then .put e else .skip
  | .touch p => if q = p then .ensure Entry.emptyFile else .skip

/-- Sequential composition of effect summaries (`b` happens after `a`). -/
def effComb (a b : Eff) : Eff :=
  match b with
  | .skip => a
  | .put e => .put e
  | .ensure e =>
    match a with
    | .skip => .ensure e
    | .ensure e' => .ensure e'
    | .put e' => .put e'

theorem Eff.runOn_effComb (a b : Eff) (x : Option Entry) :
    (effComb a b).runOn x = b.runOn (a.runOn x) := by
  cases b <;> cases a <;> cases x <;> rfl

theorem Eff.runOn_runOn (a : Eff) (x : Option Entry) :
    a.runOn (a.runOn x) = a.runOn x := by
  cases a <;> cases x <;> rfl

theorem applyOp_at (fs : FS) (op : Op) (q : List String) :
    applyOp fs op q = (effAt op q).runOn (fs q) := by
  cases op with
  | mkdir p =>
    by_cases h : q = p <;> simp [applyOp, effAt, h, Eff.runOn]
  | write p e =>
    by_cases h : q = p <;> simp [applyOp, effAt, h, Eff.runOn]
  | touch p =>
    by_cases h : q = p <;> simp [applyOp, effAt, h, Eff.runOn]

/-- The combined effect of a list of operations on the path `q`. -/
def effOf (ops : List Op) (q : List String) : Eff :=
  ops.foldl (fun a op => effComb a (effAt op q)) Eff.skip

theorem applyOps_at_aux (ops : List Op) :
    ∀ (a : Eff) (x : Option Entry) (fs : FS), fs q = a.runOn x →
      applyOps fs ops q = (ops.foldl (fun a op => effComb a (effAt op q)) a).runOn x := by
  induction ops with
  | nil => intro a x fs h; simpa [applyOps] using h
  | cons op rest ih =>
    intro a x fs h
    have hstep : (applyOp fs op) q = (effComb a (effAt op q)).runOn x := by
      rw [Eff.runOn_effComb, ← h, applyOp_at]
    simpa [applyOps] using ih (effComb a (effAt op q)) x (applyOp fs op) hstep

/-- Pointwise characterisation of `applyOps`. -/
theorem applyOps_at (ops : List Op) (fs : FS) (q : List String) :
    applyOps fs ops q = (effOf ops q).runOn (fs q) := by
  exact applyOps_at_aux ops Eff.skip (fs q) fs rfl

/-- Re-applying the same operation list changes nothing: second runs
overwrite, they never create new paths. -/
theorem applyOps_idem (ops : List Op) (fs : FS) :
    applyOps (applyOps fs ops) ops = applyOps fs ops := by
  funext q
  rw [applyOps_at, applyOps_at, Eff.runOn_runOn]

theorem applyOps_isSome_of_isSome (ops : List Op) (p : List String) :
    ∀ fs : FS, (fs p).isSome → ((applyOps fs ops) p).isSome := by
  induction ops with
  | nil => intro fs h; simpa [applyOps] using h
  | cons op rest ih =>
    intro fs h
    have : ((applyOp fs op) p).isSome := by
      rw [applyOp_at]
      cases heff : effAt op p <;> simp [Eff.runOn] <;> simpa using h
    simpa [applyOps] using ih (applyOp fs op) this

/-- A path written by some operation of the list exists afterwards
(there is no deleting operation). -/
theorem applyOps_isSome_of_write (ops : List Op) (p : List String) (e : Entry)
    (h : Op.write p e ∈ ops) : ∀ fs : FS, ((applyOps fs ops) p).isSome := by
  induction ops with
  | nil => exact absurd h (List.not_mem_nil _)
  | cons op rest ih =>
    intro fs
    rcases List.mem_cons.mp h with h1 | h2
    · subst h1
      have : ((applyOp fs (Op.write p e)) p).isSome := by simp [applyOp]
      simpa [applyOps] using applyOps_isSome_of_isSome rest p (applyOp fs (Op.write p e)) this
    · simpa [applyOps] using ih h2 (applyOp fs op)

/-- A configuration as read by `configparser`: the three sections the
scripts use, each an association list of key/value options (a missing
section is `none`). -/
structure Config where
  paths : Option (List (String × String))
  project : Option (List (String × String))
  title : Option (List (String × String))

/-- `section.get(key)` / `section[key]` lookup inside one section. -/
def secGet (sec : List (String × String)) (key : String) : Option String :=
  (sec.find? (fun kv => kv.1 == key)).map (fun kv => kv.2)

/-- `config[secName][key]`: raises `KeyError(secName)` when the section is
missing and `KeyError(key)` when the option is missing. -/
def cfgRead (sec : Option (List (String × String))) (secName key : String) :
    Except String String :=
  match sec with
  | none => .error secName
  | some s =>
    match secGet s key with
    | none => .error key
    | some v => .ok v

/-- `stripChild b p = some x` exactly when `p = b ++ [x]`, i.e. `p` is a
direct child of directory `b`. -/
def stripChild : List String → List String → Option String
  | [], [x] => some x
  | b :: bs, q :: qs => if b = q then stripChild bs qs else none
  | _, _ => none

@[simp] theorem stripChild_append_left (c a b : List String) :
    stripChild (c ++ a) (c ++ b) = stripChild a b := by
  induction c with
  | nil => rfl
  | cons x xs ih => simp [stripChild, ih]

@[simp] theorem stripChild_self_cons (c : List String) (x : String) :
    stripChild c (c ++ [x]) = some x := by
  induction c with
  | nil => rfl
  | cons y ys ih => simp [stripChild, ih]

@[simp] theorem stripChild_self_cons2 (c : List String) (x y : String) (l : List String) :
    stripChild c (c ++ (x :: y :: l)) = none := by
  induction c with
  | nil => rfl
  | cons z zs ih => simp [stripChild, ih]

@[simp] theorem stripChild_self (c : List String) : stripChild c c = none := by
  induction c with
  | nil => rfl
  | cons z zs ih => simp [stripChild, ih]

@[simp] theorem stripChild_longer (c : List String) (x : String) (l : List String) :
    stripChild (c ++ (x :: l)) c = none := by
  induction c with
  | nil => simp [stripChild]
  | cons z zs ih => simp [stripChild, ih]

/-- The name created directly inside `base` by a `mkdir`, if any. -/
def dirChildOf (base : List String) : Op → Option String
  | Op.mkdir p => stripChild base p
  | _ => none

/-- The file name created directly inside `base` by a write or touch. -/
def fileChildOf (base : List String) : Op → Option String
  | Op.write p _ => stripChild base p
  | Op.touch p => stripChild base p
  | _ => none

/-- Python `file_path.name`: the final path segment. -/
def lastSegD (p : List String) : String := p.getLastD ""

@[simp] theorem lastSegD_append_singleton (p : List String) (x : String) :
    lastSegD (p ++ [x]) = x := by
  simp [lastSegD]

/-- Python `str.lower()` (ASCII case folding; identity on the Japanese
characters involved, as in Python). -/
def pyLower (s : String) : String := ⟨s.data.map Char.toLower⟩

/-- Python `s.replace(c, r)` for a single-character pattern `c` (the only
patterns the scripts use are `"_"` and `"書"`). -/
def pyReplaceChar (s : String) (c : Char) (r : String) : String :=
  ⟨s.data.foldr (fun ch acc => if ch = c then r.data ++ acc else ch :: acc) []⟩

/-- Python `c in s` for a single character `c` (equivalent to the
substring test for one-character needles). -/
def containsChar (s : String) (c : Char) : Bool := s.data.contains c

/-- Python `s.startswith(t)`. -/
def pyStartsWith (s t : String) : Bool := t.data.isPrefixOf s.data

/-- Splitting helper for `pySplit`. -/
def pySplitGo (sep : Char) : List Char → List Char → List String
  | [], acc => [⟨acc.reverse⟩]
  | ch :: rest, acc =>
    if ch = sep then ⟨acc.reverse⟩ :: pySplitGo sep rest []
    else pySplitGo sep rest (ch :: acc)

/-- Python `s.split(sep)` for a single-character separator: used to turn
the configured root path string into `pathlib` path segments
(`"/tmp/out"` becomes `["", "tmp", "out"]`). -/
def pySplit (s : String) (sep : Char) : List String :=
  pySplitGo sep s.data []

/-- Python `pathlib.Path(...).stem`: the name up to its last dot (the
whole name when it contains no dot).  This agrees with `Path.stem` on
every name with a nonempty stem part; the program only ever takes stems
of names of the shape `<something>.xlsx` or `<something>.py`. -/
def pyStem (s : String) : String :=
  match s.data.reverse.dropWhile (fun c => c ≠ '.') with
  | [] => s
  | _ :: rest => ⟨rest.reverse⟩

theorem pyStem_append_ext (a ext : String)
    (h : ext.data.reverse.dropWhile (fun c => c ≠ '.') = ['.']) :
    pyStem (a ++ ext) = a := by
  have hd : (a ++ ext).data = a.data ++ ext.data := rfl
  unfold pyStem
  rw [hd, List.reverse_append, List.dropWhile_append, h]
  simp

@[simp] theorem pyStem_xlsx (a : String) : pyStem (a ++ ".xlsx") = a := by
  apply pyStem_append_ext
  decide

@[simp] theorem pyStem_py (a : String) : pyStem (a ++ ".py") = a := by
  apply pyStem_append_ext
  decide

@[simp] theorem pyStem_xxx_py : pyStem "xxx.py" = "xxx" := by decide

@[simp] theorem lastSegD_append_cons (l : List String) (x : String) (xs : List String) :
    lastSegD (l ++ (x :: xs)) = lastSegD (x :: xs) := by
  simp only [lastSegD, List.getLastD_eq_getLast?, List.getLast?_append_cons]

@[simp] theorem lastSegD_cons_cons (x y : String) (xs : List String) :
    lastSegD (x :: y :: xs) = lastSegD (y :: xs) := by
  simp [lastSegD]

@[simp] theorem lastSegD_singleton (x : String) : lastSegD [x] = x := by
  simp [lastSegD]

/-- Abstract per-path behaviour of `openpyxl`'s `wb.save`: `none` means
the save succeeds, `some msg` means it raises an exception rendered as
`msg` (caught by the scripts, which then write a plain-text fallback). -/
def Fail : Type := List String → Option String

/-- The always-succeeding writer. -/
def noFail : Fail := fun _ => none

/-- The writer that fails everywhere with message `err`. -/
def allFail (err : String) : Fail := fun _ => some err

/-- Exit status of one generator run. -/
inductive Outcome where
  | completed : Outcome
  | configError (key : String) : Outcome
  | crashed (key : String) : Outcome
deriving DecidableEq, Repr

namespace TestPy

/-! Embedding of `src/test.py`.  All Python call sites pass one of the
integer constants `FILE_TYPE_MAIN`/`..._REVIEW_CHECKLIST`/`..._REVIEW_MINUTES`/
`..._PYTHON` for `type`, so the embedding types it as `Nat`; the
`isinstance(type, int)` validation of `create_dummy_excel_file` therefore
never fires in this script. -/

def FILE_TYPE_MAIN : Nat := 1
def FILE_TYPE_REVIEW_CHECKLIST : Nat := 2
def FILE_TYPE_REVIEW_MINUTES : Nat := 3
def FILE_TYPE_PYTHON : Nat := 4

/-- The `FILE_TYPE` dict of `test.py` (keys are the integer constants). -/
def FILE_TYPE : List (Nat × String) :=
  [(1, "メイン資料"), (2, "レビューチェックリスト"), (3, "レビュー記録表")]

/-- The `PROCESS_MAP` dict of `test.py`, in insertion (= iteration) order. -/
def PROCESS_MAP : List (String × String) :=
  [("030", "調査"), ("040", "設計"), ("050", "製造"), ("060", "UD作成"),
   ("070", "UD消化"), ("080", "SD作成"), ("090", "SD消化")]

/-- One entry of the `PROCESS_FILES` dict: a single document with a title
key, the special Python placeholder (`"type": FILE_TYPE_PYTHON`), or a
list of documents. -/
inductive ProcInfo where
  | pyFile (main : String) : ProcInfo
  | doc (main : String) (titleKey : String) : ProcInfo
  | docs (specs : List (String × String)) : ProcInfo

/-- The `PROCESS_FILES` dict of `test.py` (`.get p`). -/
def PROCESS_FILES (p : String) : Option ProcInfo :=
  if p = "030" then some (.doc "調査検討書" "research")
  else if p = "040" then some (.doc "機能設計書" "sys_design")
  else if p = "050" then some (.pyFile "xxx")
  else if p = "060" then some (.doc "単体試験仕様書" "unit_test_doc")
  else if p = "070" then some (.doc "単体試験成績書" "unit_test_rst")
  else if p = "080" then some (.doc "結合試験仕様書" "sys_test_doc")
  else if p = "090" then
    some (.docs [("結合試験成績書", "sys_test_rst"), ("試験結果報告書", "test_rst_report")])
  else none

/-- The cells written by `create_dummy_excel_file` for each file type
(`name` is `file_path.name`).  Cell styling (wrap text) is not modelled. -/
def excelCells (ty : Nat) (title project item name : String) : List (String × String) :=
  if ty = 1 then
    [("B5", title ++ "\n" ++ project ++ "\n" ++ item),
     ("A1", "これはメイン資料です。ファイル名: " ++ name)]
  else if ty = 2 then
    [("B2", "レビューチェックリスト"), ("B3", title), ("B4", project), ("B5", item),
     ("A1", "これはレビューチェックリストです。ファイル名: " ++ name)]
  else if ty = 3 then
    [("B2", "レビュー記録表"),
     ("G2", project ++ "_" ++ item ++ "_" ++ title ++ " レビュー"),
     ("A1", "これはレビュー記録表です。ファイル名: " ++ name)]
  else
    [("A1", "不明なファイルタイプ (" ++ toString ty ++ ") のダミーExcelです。ファイル名: " ++ name)]

/-- The fixed plain-text fallback content written when `wb.save` fails. -/
def fallbackText (name err : String) : String :=
  "Dummy Excel Content (Fallback) - " ++ name ++ "\n" ++ "Error: " ++ err ++ "\n"

/-- The entry `create_dummy_excel_file` stores at `p`: the workbook when
the save succeeds, the plain-text fallback when it raises. -/
def dummyEntry (fail : Fail) (ty : Nat) (title project item : String)
    (p : List String) : Entry :=
  match fail p with
  | none => .excel (excelCells ty title project item (lastSegD p))
  | some err => .text (fallbackText (lastSegD p) err)

/-- `create_dummy_excel_file` of `test.py`: validates the (always integer)
type against `FILE_TYPE` and returns `False` with no file on failure;
otherwise writes exactly one file at `p` (workbook or text fallback) and
returns whether the rich format was produced. -/
def create_dummy_excel_file (fail : Fail) (ty : Nat) (title project item : String)
    (p : List String) : List Op × Bool :=
  if (FILE_TYPE.find? (fun kv => kv.1 == ty)).isSome then
    ([Op.write p (dummyEntry fail ty title project item p)], (fail p).isNone)
  else ([], false)

/-- `create_file_with_title` of `test.py`.  Returns the created path
(`none` when the Excel writer degraded to the text fallback);
`Except.error "title"` models the uncaught `KeyError('title')` raised by
`config["title"]` when the `[title]` section is missing. -/
def create_file_with_title (fail : Fail) (cfg : Config) (fileType : Nat)
    (baseDir : List String) (filePre : String) (project item : String)
    (specificTitleKey : Option String) : List Op × Except String (Option (List String)) :=
  if fileType = 4 then
    ([Op.mkdir baseDir, Op.touch (baseDir ++ [filePre ++ ".py"])],
     .ok (some (baseDir ++ [filePre ++ ".py"])))
  else
    match cfg.title with
    | none => ([Op.mkdir baseDir], .error "title")
    | some ts =>
      let titleKey := specificTitleKey.getD (pyLower (pyReplaceChar filePre '_' ""))
      let titleFromConfig := (secGet ts titleKey).getD filePre
      let fp := baseDir ++ [filePre ++ "_" ++ project ++ "_" ++ item ++ ".xlsx"]
      let r := create_dummy_excel_file fail fileType titleFromConfig project item fp
      (Op.mkdir baseDir :: r.1, .ok (if r.2 then some fp else none))

/-- The `inferred_title_key` computation inside `create_review_files`. -/
def inferTitleKey (stem : String) : String :=
  if pyStartsWith stem "結合試験成績書" then "sys_test_rst"
  else if pyStartsWith stem "試験結果報告書" then "test_rst_report"
  else if containsChar stem '書' then pyLower (pyReplaceChar stem '書' "")
  else pyLower stem

/-- Run an action for each element in order, concatenating the emitted
operations and stopping at the first uncaught exception. -/
def seqOps {α β : Type} (f : α → List Op × Except String β) :
    List α → List Op × Except String Unit
  | [] => ([], .ok ())
  | x :: rest =>
    match f x with
    | (ops, .error e) => (ops, .error e)
    | (ops, .ok _) =>
      match seqOps f rest with
      | (ops2, r) => (ops ++ ops2, r)

/-- `create_review_files` of `test.py`: create the dated folder, re-create
one main document per recorded stem, then the checklist and the minutes
files.  Returns the dated folder path. -/
def create_review_files (fail : Fail) (cfg : Config) (baseFolder : List String)
    (dateObj : PyDate) (suffix : String) (project item p_num p_name : String)
    (stems : List String) : List Op × Except String (List String) :=
  let dateFolder := baseFolder ++ [fmtYmd dateObj]
  match seqOps (fun stem =>
      create_file_with_title fail cfg FILE_TYPE_MAIN dateFolder stem project item
        (some (inferTitleKey stem))) stems with
  | (opsM, .error e) => (Op.mkdir dateFolder :: opsM, .error e)
  | (opsM, .ok _) =>
    match create_file_with_title fail cfg FILE_TYPE_REVIEW_CHECKLIST dateFolder
        ("レビューチェックリスト_" ++ p_num ++ "_" ++ suffix) project item
        (some "review_checklist") with
    | (oC, .error e) => (Op.mkdir dateFolder :: (opsM ++ oC), .error e)
    | (oC, .ok _) =>
      match create_file_with_title fail cfg FILE_TYPE_REVIEW_MINUTES dateFolder
          ("レビュー記録表_" ++ p_name ++ "_" ++ suffix) project item
          (some "review_minutes") with
      | (oR, .error e) => (Op.mkdir dateFolder :: (opsM ++ oC ++ oR), .error e)
      | (oR, .ok _) => (Op.mkdir dateFolder :: (opsM ++ oC ++ oR), .ok dateFolder)

/-- The recorded stem for an optionally created file
(`main_file_stem_for_review.append(file_path.stem)`). -/
def stemOf : Option (List String) → List String
  | some p => [pyStem (lastSegD p)]
  | none => []

/-- The main-deliverable loop body for a phase whose `PROCESS_FILES` entry
is a list (each `file_data.get("type", 1)` is `1` for the entries of
`test.py`), collecting the created files' stems. -/
def collectDocs (fail : Fail) (cfg : Config) (processDir : List String)
    (project item : String) : List (String × String) → List Op × Except String (List String)
  | [] => ([], .ok [])
  | (m, k) :: rest =>
    match create_file_with_title fail cfg FILE_TYPE_MAIN processDir m project item (some k) with
    | (ops, .error e) => (ops, .error e)
    | (ops, .ok pOpt) =>
      match collectDocs fail cfg processDir project item rest with
      | (ops2, .error e) => (ops ++ ops2, .error e)
      | (ops2, .ok stems) => (ops ++ ops2, .ok (stemOf pOpt ++ stems))

/-- Creation of the main deliverable files of one phase, returning the
stems recorded for the review step. -/
def mainDocsOps (fail : Fail) (cfg : Config) (processDir : List String)
    (project item : String) : Option ProcInfo → List Op × Except String (List String)
  | some (.pyFile m) =>
    match create_file_with_title fail cfg FILE_TYPE_PYTHON processDir m project item none with
    | (ops, .error e) => (ops, .error e)
    | (ops, .ok pOpt) => (ops, .ok (stemOf pOpt))
  | some (.doc m k) =>
    match create_file_with_title fail cfg FILE_TYPE_MAIN processDir m project item (some k) with
    | (ops, .error e) => (ops, .error e)
    | (ops, .ok pOpt) => (ops, .ok (stemOf pOpt))
  | some (.docs specs) => collectDocs fail cfg processDir project item specs
  | none => ([], .ok [])

/-- The body of the `for p_num, p_name in PROCESS_MAP.items()` loop of
`create_sample_teams_structure` in `test.py`. -/
def processPhase (fail : Fail) (cfg : Config) (project item : String)
    (base : List String) (d1 d2 d3 d4 : PyDate) (pp : String × String) :
    List Op × Except String Unit :=
  let processDir := base ++ [pp.1 ++ "." ++ pp.2]
  match mainDocsOps fail cfg processDir project item (PROCESS_FILES pp.1) with
  | (oM, .error e) => (Op.mkdir processDir :: oM, .error e)
  | (oM, .ok stems) =>
    let resultsDir := processDir ++ ["成果物"]
    let internalDir := resultsDir ++ ["内部レビュー"]
    match create_review_files fail cfg internalDir d1 "社内_1回目" project item pp.1 pp.2 stems with
    | (oI1, .error e) =>
      (Op.mkdir processDir :: (oM ++ [Op.mkdir resultsDir, Op.mkdir internalDir] ++ oI1), .error e)
    | (oI1, .ok _) =>
      match (if pp.1 = "030" then
          create_review_files fail cfg internalDir d2 "社内_2回目" project item pp.1 pp.2 stems
        else ([], .ok [])) with
      | (oI2, .error e) =>
        (Op.mkdir processDir :: (oM ++ [Op.mkdir resultsDir, Op.mkdir internalDir] ++ oI1 ++ oI2),
         .error e)
      | (oI2, .ok _) =>
        let externalDir := resultsDir ++ ["外部レビュー"]
        let before := oM ++ [Op.mkdir resultsDir, Op.mkdir internalDir] ++ oI1 ++ oI2
          ++ [Op.mkdir externalDir]
        if pp.1 ∈ (["030", "040", "080", "090"] : List String) then
          match create_review_files fail cfg externalDir d3 "社外_1回目" project item pp.1 pp.2 stems with
          | (oE1, .error e) => (Op.mkdir processDir :: (before ++ oE1), .error e)
          | (oE1, .ok ext1Folder) =>
            if pp.1 = "030" then
              match create_file_with_title fail cfg FILE_TYPE_MAIN ext1Folder "調査B"
                  project item (some "research") with
              | (oB, .error e) => (Op.mkdir processDir :: (before ++ oE1 ++ oB), .error e)
              | (oB, .ok _) =>
                match create_review_files fail cfg externalDir d4 "社外_2回目" project item
                    pp.1 pp.2 [] with
                | (oE2, r) =>
                  (Op.mkdir processDir :: (before ++ oE1 ++ oB ++ oE2), r.map (fun _ => ()))
            else (Op.mkdir processDir :: (before ++ oE1), .ok ())
        else (Op.mkdir processDir :: before, .ok ())

/-- `f"{current_year}_{current_quarter}Q"` with
`current_quarter = (month - 1) // 3 + 1`. -/
def quarterName (today : PyDate) : String :=
  toString today.year ++ "_" ++ toString ((today.month - 1) / 3 + 1) ++ "Q"

/-- `create_sample_teams_structure` of `test.py`, as the list of
filesystem operations it performs plus the exit status.  `configError`
models the caught `KeyError` path (error logged, function returns before
creating anything); `crashed` models an uncaught `KeyError` from a
missing `[title]` section (the operations already performed remain). -/
def create_sample_teams_structure (fail : Fail) (cfg : Config) (today : PyDate) :
    List Op × Outcome :=
  match cfgRead cfg.paths "Paths" "sample_teams_root" with
  | .error k => ([], .configError k)
  | .ok rootStr =>
  match cfgRead cfg.project "Project" "project_name" with
  | .error k => ([], .configError k)
  | .ok project =>
  match cfgRead cfg.project "Project" "item_name" with
  | .error k => ([], .configError k)
  | .ok item =>
    let projectRoot := pySplit rootStr '/' ++ [project, item]
    let base := projectRoot ++ [quarterName today]
    match seqOps (processPhase fail cfg project item base
        (subDays today 7) (subDays today 5) (subDays today 3) (subDays today 1)) PROCESS_MAP with
    | (ops, r) =>
      (Op.mkdir projectRoot :: Op.mkdir base :: ops,
       match r with | .ok _ => .completed | .error k => .crashed k)

end TestPy

namespace CstsPy

/-! Embedding of `src/create_sample_teams_structure.py` (the earlier
variant of the script; its review-folder code is commented out).  Its
`create_empty_excel_file` receives a dynamically typed `type` argument,
validates it as a string against a string-keyed `FILE_TYPE` dict, but
only logs the raised `TypeError`/`ValueError` (the `except` block does
not return), then compares `type == 1/2/3` against integers. -/

/-- A dynamically typed Python value, as passed for `type`. -/
inductive PyVal where
  | int (n : Int) : PyVal
  | str (s : String) : PyVal
deriving DecidableEq, Repr

/-- `isinstance(v, str)`. -/
def pyIsStr : PyVal → Bool
  | .str _ => true
  | .int _ => false

/-- Python `v == n` for an integer literal `n`. -/
def pyEqInt (v : PyVal) (n : Int) : Bool :=
  match v with
  | .int m => m == n
  | .str _ => false

/-- `str(v)` as interpolated by an f-string. -/
def pyShow : PyVal → String
  | .int n => toString n
  | .str s => s

/-- The `FILE_TYPE` dict of `create_sample_teams_structure.py`
(string keys). -/
def FILE_TYPE : List (String × String) :=
  [("1", "メイン資料"), ("2", "レビュー記録表"), ("3", "セルフチェック表")]

/-- Python `v in FILE_TYPE` (dict key membership). -/
def inFileType (v : PyVal) : Bool :=
  match v with
  | .str s => (FILE_TYPE.find? (fun kv => kv.1 == s)).isSome
  | .int _ => false

/-- The message of the `TypeError`/`ValueError` raised (and immediately
caught and logged) by the validation block, if any. -/
def validationError (ty : PyVal) : Option String :=
  if !pyIsStr ty then some "ファイル種別：typeは文字列で指定してください。"
  else if !inFileType ty then some ("無効なファイル種別です: " ++ pyShow ty)
  else none

/-- The cells written by the three independent `if type == n` blocks.
The `¥n` in the B5 value is literal (the source writes `¥n`, not `\n`). -/
def cells (ty : PyVal) (title project item : String) : List (String × String) :=
  (if pyEqInt ty 1 then [("B5", title ++ "¥n" ++ project ++ "¥n" ++ item)] else [])
  ++ (if pyEqInt ty 2 then
        [("B2", "セルフチェックリスト"), ("B3", title), ("B4", project), ("B5", item)]
      else [])
  ++ (if pyEqInt ty 3 then
        [("B2", "レビュー記録表"),
         ("G2", project ++ "_" ++ item ++ "_" ++ title ++ " レビュー")]
      else [])

/-- Result of `create_empty_excel_file`: the operations performed plus
the validation error that was logged (the function itself returns `None`
either way). -/
structure EResult where
  ops : List Op
  validation : Option String

/-- `create_empty_excel_file` of `create_sample_teams_structure.py`:
the validation failure is only logged, after which the workbook is still
created and saved at `p` (or the one-line text fallback is written when
the save raises). -/
def create_empty_excel_file (fail : Fail) (ty : PyVal) (title project item : String)
    (p : List String) : EResult :=
  match fail p with
  | none => ⟨[Op.write p (.excel (cells ty title project item))], validationError ty⟩
  | some _ =>
    ⟨[Op.write p (.text ("Dummy Excel Content (Fallback) - " ++ lastSegD p))],
     validationError ty⟩

/-- `config["title"][key]`: `KeyError('title')` when the section is
missing, `KeyError(key)` when the key is missing (uncaught in this
script's phase loop). -/
def titleGet (cfg : Config) (key : String) : Except String String :=
  match cfg.title with
  | none => .error "title"
  | some ts =>
    match secGet ts key with
    | none => .error key
    | some v => .ok v

/-- The per-phase `elif` chain creating the main deliverable files
(`type_main = 1`, an `int`, is passed to every `create_empty_excel_file`
call). -/
def mainFor (fail : Fail) (cfg : Config) (processDir : List String)
    (project item : String) (p_num : String) : List Op × Except String Unit :=
  if p_num = "030" then
    match titleGet cfg "research" with
    | .error k => ([], .error k)
    | .ok t =>
      ((create_empty_excel_file fail (.int 1) t project item
          (processDir ++ ["調査検討書_" ++ project ++ "_" ++ item ++ ".xlsx"])).ops, .ok ())
  else if p_num = "040" then
    match titleGet cfg "sys_design" with
    | .error k => ([], .error k)
    | .ok t =>
      ((create_empty_excel_file fail (.int 1) t project item
          (processDir ++ ["機能設計書_" ++ project ++ "_" ++ item ++ ".xlsx"])).ops, .ok ())
  else if p_num = "050" then
    ([Op.touch (processDir ++ ["xxx.py"])], .ok ())
  else if p_num = "060" then
    match titleGet cfg "unit_test_doc" with
    | .error k => ([], .error k)
    | .ok t =>
      ((create_empty_excel_file fail (.int 1) t project item
          (processDir ++ ["単体試験仕様書_" ++ project ++ "_" ++ item ++ ".xlsx"])).ops, .ok ())
  else if p_num = "070" then
    match titleGet cfg "unit_test_rst" with
    | .error k => ([], .error k)
    | .ok t =>
      ((create_empty_excel_file fail (.int 1) t project item
          (processDir ++ ["単体試験成績書_" ++ project ++ "_" ++ item ++ ".xlsx"])).ops, .ok ())
  else if p_num = "080" then
    match titleGet cfg "sys_test_doc" with
    | .error k => ([], .error k)
    | .ok t =>
      ((create_empty_excel_file fail (.int 1) t project item
          (processDir ++ ["結合試験仕様書_" ++ project ++ "_" ++ item ++ ".xlsx"])).ops, .ok ())
  else if p_num = "090" then
    match titleGet cfg "sys_test_rst" with
    | .error k => ([], .error k)
    | .ok t1 =>
      match titleGet cfg "test_rst_report" with
      | .error k =>
        ((create_empty_excel_file fail (.int 1) t1 project item
            (processDir ++ ["結合試験成績書_" ++ project ++ "_" ++ item ++ ".xlsx"])).ops, .error k)
      | .ok t2 =>
        ((create_empty_excel_file fail (.int 1) t1 project item
            (processDir ++ ["結合試験成績書_" ++ project ++ "_" ++ item ++ ".xlsx"])).ops
          ++ (create_empty_excel_file fail (.int 1) t2 project item
            (processDir ++ ["試験結果報告書_" ++ project ++ "_" ++ item ++ ".xlsx"])).ops, .ok ())
  else ([], .ok ())

/-- `create_sample_teams_structure` of `create_sample_teams_structure.py`
(its review-folder code is commented out, so only the root, quarter and
phase folders and the main deliverables are produced).  This script uses
the same `PROCESS_MAP` as `test.py`. -/
def create_sample_teams_structure (fail : Fail) (cfg : Config) (today : PyDate) :
    List Op × Outcome :=
  match cfgRead cfg.paths "Paths" "sample_teams_root" with
  | .error k => ([], .configError k)
  | .ok rootStr =>
  match cfgRead cfg.project "Project" "project_name" with
  | .error k => ([], .configError k)
  | .ok project =>
  match cfgRead cfg.project "Project" "item_name" with
  | .error k => ([], .configError k)
  | .ok item =>
    let projectRoot := pySplit rootStr '/' ++ [project, item]
    let base := projectRoot ++ [TestPy.quarterName today]
    match TestPy.seqOps (fun pp : String × String =>
        let processDir := base ++ [pp.1 ++ "." ++ pp.2]
        match mainFor fail cfg processDir project item pp.1 with
        | (ops, r) => (Op.mkdir processDir :: ops, r.map (fun u => u))) TestPy.PROCESS_MAP with
    | (ops, r) =>
      (Op.mkdir projectRoot :: Op.mkdir base :: ops,
       match r with | .ok _ => .completed | .error k => .crashed k)

end CstsPy

namespace TestPy

/-! Structural lemmas about `test.py`'s generator: with a `[title]`
section present the run always completes (no uncaught exception, for
every writer behaviour), and every file written is a
`create_dummy_excel_file` artifact named `<stem>_<project>_<item>.xlsx`. -/

theorem cfwt_ok (fail : Fail) (cfg : Config) (ty : Nat) (bd : List String)
    (pre pr it : String) (k : Option String) (ts : List (String × String))
    (h6 : cfg.title = some ts) :
    ∃ v, (create_file_with_title fail cfg ty bd pre pr it k).2 = Except.ok v := by
  by_cases hty : ty = 4 <;> simp [create_file_with_title, hty, h6]

theorem seqOps_ok {α β : Type} (f : α → List Op × Except String β) (l : List α)
    (h : ∀ x ∈ l, ∃ v, (f x).2 = Except.ok v) :
    (seqOps f l).2 = Except.ok () := by
  induction l with
  | nil => rfl
  | cons x rest ih =>
    obtain ⟨v, hv⟩ := h x (List.mem_cons_self x rest)
    have hrest := ih (fun y hy => h y (List.mem_cons_of_mem x hy))
    rcases hfx : f x with ⟨ops, r⟩
    rcases hs : seqOps f rest with ⟨ops2, r2⟩
    have hr : r = Except.ok v := by rw [hfx] at hv; exact hv
    have hr2 : r2 = Except.ok () := by rw [hs] at hrest; exact hrest
    subst hr; subst hr2
    simp [seqOps, hfx, hs]

theorem crf_ok (fail : Fail) (cfg : Config) (bf : List String) (d : PyDate)
    (sfx pr it pn pm : String) (stems : List String) (ts : List (String × String))
    (h6 : cfg.title = some ts) :
    (create_review_files fail cfg bf d sfx pr it pn pm stems).2
      = Except.ok (bf ++ [fmtYmd d]) := by
  have hseq : (seqOps (fun stem =>
      create_file_with_title fail cfg FILE_TYPE_MAIN (bf ++ [fmtYmd d]) stem pr it
        (some (inferTitleKey stem))) stems).2 = Except.ok () :=
    seqOps_ok _ _ (fun x _ => cfwt_ok fail cfg _ _ x pr it _ ts h6)
  rcases hs : seqOps (fun stem =>
      create_file_with_title fail cfg FILE_TYPE_MAIN (bf ++ [fmtYmd d]) stem pr it
        (some (inferTitleKey stem))) stems with ⟨opsM, rM⟩
  have hrM : rM = Except.ok () := by rw [hs] at hseq; exact hseq
  obtain ⟨vC, hC⟩ := cfwt_ok fail cfg FILE_TYPE_REVIEW_CHECKLIST (bf ++ [fmtYmd d])
    ("レビューチェックリスト_" ++ pn ++ "_" ++ sfx) pr it (some "review_checklist") ts h6
  rcases hc : create_file_with_title fail cfg FILE_TYPE_REVIEW_CHECKLIST (bf ++ [fmtYmd d])
      ("レビューチェックリスト_" ++ pn ++ "_" ++ sfx) pr it (some "review_checklist") with ⟨oC, rC⟩
  have hrC : rC = Except.ok vC := by rw [hc] at hC; exact hC
  obtain ⟨vR, hR⟩ := cfwt_ok fail cfg FILE_TYPE_REVIEW_MINUTES (bf ++ [fmtYmd d])
    ("レビュー記録表_" ++ pm ++ "_" ++ sfx) pr it (some "review_minutes") ts h6
  rcases hm : create_file_with_title fail cfg FILE_TYPE_REVIEW_MINUTES (bf ++ [fmtYmd d])
      ("レビュー記録表_" ++ pm ++ "_" ++ sfx) pr it (some "review_minutes") with ⟨oR, rR⟩
  have hrR : rR = Except.ok vR := by rw [hm] at hR; exact hR
  subst hrM; subst hrC; subst hrR
  simp [create_review_files, hs, hc, hm]

theorem collectDocs_ok (fail : Fail) (cfg : Config) (pd : List String)
    (pr it : String) (specs : List (String × String)) (ts : List (String × String))
    (h6 : cfg.title = some ts) :
    ∃ v, (collectDocs fail cfg pd pr it specs).2 = Except.ok v := by
  induction specs with
  | nil => exact ⟨[], rfl⟩
  | cons mk rest ih =>
    obtain ⟨v1, hv1⟩ := cfwt_ok fail cfg FILE_TYPE_MAIN pd mk.1 pr it (some mk.2) ts h6
    obtain ⟨v2, hv2⟩ := ih
    rcases hfx : create_file_with_title fail cfg FILE_TYPE_MAIN pd mk.1 pr it (some mk.2)
      with ⟨ops, r⟩
    rcases hs : collectDocs fail cfg pd pr it rest with ⟨ops2, r2⟩
    have hr : r = Except.ok v1 := by rw [hfx] at hv1; exact hv1
    have hr2 : r2 = Except.ok v2 := by rw [hs] at hv2; exact hv2
    subst hr; subst hr2
    exact ⟨stemOf v1 ++ v2, by simp [collectDocs, hfx, hs]⟩

theorem mainDocsOps_ok (fail : Fail) (cfg : Config) (pd : List String)
    (pr it : String) (pi : Option ProcInfo) (ts : List (String × String))
    (h6 : cfg.title = some ts) :
    ∃ v, (mainDocsOps fail cfg pd pr it pi).2 = Except.ok v := by
  match pi with
  | none => exact ⟨[], rfl⟩
  | some (.pyFile m) =>
    obtain ⟨v, hv⟩ := cfwt_ok fail cfg FILE_TYPE_PYTHON pd m pr it none ts h6
    rcases hfx : create_file_with_title fail cfg FILE_TYPE_PYTHON pd m pr it none with ⟨ops, r⟩
    have hr : r = Except.ok v := by rw [hfx] at hv; exact hv
    subst hr
    exact ⟨stemOf v, by simp [mainDocsOps, hfx]⟩
  | some (.doc m k) =>
    obtain ⟨v, hv⟩ := cfwt_ok fail cfg FILE_TYPE_MAIN pd m pr it (some k) ts h6
    rcases hfx : create_file_with_title fail cfg FILE_TYPE_MAIN pd m pr it (some k) with ⟨ops, r⟩
    have hr : r = Except.ok v := by rw [hfx] at hv; exact hv
    subst hr
    exact ⟨stemOf v, by simp [mainDocsOps, hfx]⟩
  | some (.docs specs) => exact collectDocs_ok fail cfg pd pr it specs ts h6

theorem processPhase_ok (fail : Fail) (cfg : Config) (pr it : String)
    (base : List String) (d1 d2 d3 d4 : PyDate) (pp : String × String)
    (ts : List (String × String)) (h6 : cfg.title = some ts) :
    ∃ v, (processPhase fail cfg pr it base d1 d2 d3 d4 pp).2 = Except.ok v := by
  obtain ⟨stems, hM0⟩ := mainDocsOps_ok fail cfg (base ++ [pp.1 ++ "." ++ pp.2]) pr it
    (PROCESS_FILES pp.1) ts h6
  rcases hm : mainDocsOps fail cfg (base ++ [pp.1 ++ "." ++ pp.2]) pr it (PROCESS_FILES pp.1)
    with ⟨oM, rM⟩
  have hrM : rM = Except.ok stems := by rw [hm] at hM0; exact hM0
  subst hrM
  have hI1 := crf_ok fail cfg (base ++ [pp.1 ++ "." ++ pp.2, "成果物", "内部レビュー"]) d1
    "社内_1回目" pr it pp.1 pp.2 stems ts h6
  rcases h1 : create_review_files fail cfg
      (base ++ [pp.1 ++ "." ++ pp.2, "成果物", "内部レビュー"]) d1
      "社内_1回目" pr it pp.1 pp.2 stems with ⟨oI1, rI1⟩
  have hrI1 : rI1 = Except.ok (base ++ [pp.1 ++ "." ++ pp.2, "成果物", "内部レビュー"]
      ++ [fmtYmd d1]) := by rw [h1] at hI1; exact hI1
  subst hrI1
  have hI2ex : ∃ oI2 v2, (if pp.1 = "030" then
      create_review_files fail cfg
        (base ++ [pp.1 ++ "." ++ pp.2, "成果物", "内部レビュー"]) d2
        "社内_2回目" pr it pp.1 pp.2 stems
    else ([], Except.ok [])) = (oI2, Except.ok v2) := by
    by_cases hp : pp.1 = "030"
    · rw [if_pos hp]
      have hcr := crf_ok fail cfg
        (base ++ [pp.1 ++ "." ++ pp.2, "成果物", "内部レビュー"]) d2
        "社内_2回目" pr it pp.1 pp.2 stems ts h6
      rcases hx : create_review_files fail cfg
        (base ++ [pp.1 ++ "." ++ pp.2, "成果物", "内部レビュー"]) d2
        "社内_2回目" pr it pp.1 pp.2 stems with ⟨o, r⟩
      rw [hx] at hcr
      exact ⟨o, base ++ [pp.1 ++ "." ++ pp.2, "成果物", "内部レビュー"] ++ [fmtYmd d2],
        congrArg (Prod.mk o) (show r = Except.ok (base ++ [pp.1 ++ "." ++ pp.2, "成果物",
          "内部レビュー"] ++ [fmtYmd d2]) from hcr)⟩
    · rw [if_neg hp]
      exact ⟨[], [], rfl⟩
  obtain ⟨oI2, v2, h2⟩ := hI2ex
  have hE1 := crf_ok fail cfg (base ++ [pp.1 ++ "." ++ pp.2, "成果物", "外部レビュー"]) d3
    "社外_1回目" pr it pp.1 pp.2 stems ts h6
  rcases h3 : create_review_files fail cfg
      (base ++ [pp.1 ++ "." ++ pp.2, "成果物", "外部レビュー"]) d3
      "社外_1回目" pr it pp.1 pp.2 stems with ⟨oE1, rE1⟩
  have hrE1 : rE1 = Except.ok (base ++ [pp.1 ++ "." ++ pp.2, "成果物", "外部レビュー"]
      ++ [fmtYmd d3]) := by rw [h3] at hE1; exact hE1
  subst hrE1
  obtain ⟨vB, hB0⟩ := cfwt_ok fail cfg FILE_TYPE_MAIN
    (base ++ [pp.1 ++ "." ++ pp.2, "成果物", "外部レビュー", fmtYmd d3]) "調査B" pr it
    (some "research") ts h6
  rcases h4 : create_file_with_title fail cfg FILE_TYPE_MAIN
      (base ++ [pp.1 ++ "." ++ pp.2, "成果物", "外部レビュー", fmtYmd d3]) "調査B" pr it
      (some "research") with ⟨oB, rB⟩
  have hrB : rB = Except.ok vB := by rw [h4] at hB0; exact hB0
  subst hrB
  have hE2 := crf_ok fail cfg (base ++ [pp.1 ++ "." ++ pp.2, "成果物", "外部レビュー"]) d4
    "社外_2回目" pr it pp.1 pp.2 [] ts h6
  rcases h5 : create_review_files fail cfg
      (base ++ [pp.1 ++ "." ++ pp.2, "成果物", "外部レビュー"]) d4
      "社外_2回目" pr it pp.1 pp.2 [] with ⟨oE2, rE2⟩
  have hrE2 : rE2 = Except.ok (base ++ [pp.1 ++ "." ++ pp.2, "成果物", "外部レビュー"]
      ++ [fmtYmd d4]) := by rw [h5] at hE2; exact hE2
  subst hrE2
  refine ⟨(), ?_⟩
  simp [processPhase, hm, h1, h2, h3, h4, h5, Except.map,
    apply_ite (Prod.snd : List Op × Except String Unit → Except String Unit)]

/-- With the three required configuration values and a `[title]` section
present, `test.py`'s generator always completes, whatever the Excel
writer does: the title lookups inside the run all have fallbacks. -/
theorem run_completed (fail : Fail) (cfg : Config) (today : PyDate)
    (ps pj ts : List (String × String)) (r P I : String)
    (h1 : cfg.paths = some ps) (h2 : secGet ps "sample_teams_root" = some r)
    (h3 : cfg.project = some pj) (h4 : secGet pj "project_name" = some P)
    (h5 : secGet pj "item_name" = some I) (h6 : cfg.title = some ts) :
    (create_sample_teams_structure fail cfg today).2 = Outcome.completed := by
  have hseq := seqOps_ok (processPhase fail cfg P I
      (pySplit r '/' ++ [P, I, quarterName today])
      (subDays today 7) (subDays today 5) (subDays today 3) (subDays today 1)) PROCESS_MAP
    (fun pp _ => processPhase_ok fail cfg P I _ _ _ _ _ pp ts h6)
  rcases hs : seqOps (processPhase fail cfg P I
      (pySplit r '/' ++ [P, I, quarterName today])
      (subDays today 7) (subDays today 5) (subDays today 3) (subDays today 1)) PROCESS_MAP
    with ⟨ops, rr⟩
  have hrr : rr = Except.ok () := by rw [hs] at hseq; exact hseq
  subst hrr
  simp [create_sample_teams_structure, cfgRead, h1, h2, h3, h4, h5, hs]

/-- Every file write performed by `create_file_with_title` (hence by the
whole run) stores the `create_dummy_excel_file` artifact for its
destination and is named `<stem>_<project>_<item>.xlsx`. -/
def goodWrites (fail : Fail) (pr it : String) (ops : List Op) : Prop :=
  ∀ p e, Op.write p e ∈ ops → ∃ ty title pre,
    e = dummyEntry fail ty title pr it p ∧
    lastSegD p = pre ++ "_" ++ pr ++ "_" ++ it ++ ".xlsx"

theorem goodWrites_nil (fail : Fail) (pr it : String) : goodWrites fail pr it [] := by
  intro p e h
  exact absurd h (List.not_mem_nil _)

theorem goodWrites_append {fail : Fail} {pr it : String} {o1 o2 : List Op}
    (g1 : goodWrites fail pr it o1) (g2 : goodWrites fail pr it o2) :
    goodWrites fail pr it (o1 ++ o2) := by
  intro p e h
  rcases List.mem_append.mp h with h' | h'
  · exact g1 p e h'
  · exact g2 p e h'

theorem goodWrites_mkdir_cons {fail : Fail} {pr it : String} {b : List String} {o : List Op}
    (g : goodWrites fail pr it o) : goodWrites fail pr it (Op.mkdir b :: o) := by
  intro p e h
  rcases List.mem_cons.mp h with h' | h'
  · exact absurd h' (by simp)
  · exact g p e h'

theorem goodWrites_cfwt (fail : Fail) (cfg : Config) (ty : Nat) (bd : List String)
    (pre pr it : String) (k : Option String) :
    goodWrites fail pr it (create_file_with_title fail cfg ty bd pre pr it k).1 := by
  intro p e hmem
  by_cases hty : ty = 4
  · simp [create_file_with_title, hty] at hmem
  · cases h6 : cfg.title with
    | none =>
      simp [create_file_with_title, hty, h6] at hmem
    | some ts =>
      by_cases hft : (FILE_TYPE.find? (fun kv => kv.1 == ty)).isSome
      · simp [create_file_with_title, hty, h6, create_dummy_excel_file, hft] at hmem
        refine ⟨ty, (secGet ts (k.getD (pyLower (pyReplaceChar pre '_' "")))).getD pre, pre, ?_, ?_⟩
        · rw [hmem.2, hmem.1]
        · rw [hmem.1]; simp
      · simp [create_file_with_title, hty, h6, create_dummy_excel_file, hft] at hmem

theorem goodWrites_seqOps {β α : Type} (fail : Fail) (pr it : String)
    (f : α → List Op × Except String β) (l : List α)
    (hf : ∀ x, goodWrites fail pr it (f x).1) :
    goodWrites fail pr it (seqOps f l).1 := by
  induction l with
  | nil => exact goodWrites_nil fail pr it
  | cons x rest ih =>
    have hx := hf x
    rcases hfx : f x with ⟨ops, r⟩
    rw [hfx] at hx
    rcases hs : seqOps f rest with ⟨ops2, r2⟩
    rw [hs] at ih
    cases r with
    | error e => simpa [seqOps, hfx] using hx
    | ok v => simpa [seqOps, hfx, hs] using goodWrites_append hx ih

theorem goodWrites_crf (fail : Fail) (cfg : Config) (bf : List String) (d : PyDate)
    (sfx pr it pn pm : String) (stems : List String) :
    goodWrites fail pr it (create_review_files fail cfg bf d sfx pr it pn pm stems).1 := by
  have hseq := goodWrites_seqOps fail pr it
    (fun stem => create_file_with_title fail cfg FILE_TYPE_MAIN (bf ++ [fmtYmd d]) stem pr it
      (some (inferTitleKey stem))) stems
    (fun x => goodWrites_cfwt fail cfg FILE_TYPE_MAIN (bf ++ [fmtYmd d]) x pr it _)
  have hC := goodWrites_cfwt fail cfg FILE_TYPE_REVIEW_CHECKLIST (bf ++ [fmtYmd d])
    ("レビューチェックリスト_" ++ pn ++ "_" ++ sfx) pr it (some "review_checklist")
  have hR := goodWrites_cfwt fail cfg FILE_TYPE_REVIEW_MINUTES (bf ++ [fmtYmd d])
    ("レビュー記録表_" ++ pm ++ "_" ++ sfx) pr it (some "review_minutes")
  rcases hs : seqOps (fun stem => create_file_with_title fail cfg FILE_TYPE_MAIN
      (bf ++ [fmtYmd d]) stem pr it (some (inferTitleKey stem))) stems with ⟨opsM, rM⟩
  rw [hs] at hseq
  rcases hc : create_file_with_title fail cfg FILE_TYPE_REVIEW_CHECKLIST (bf ++ [fmtYmd d])
      ("レビューチェックリスト_" ++ pn ++ "_" ++ sfx) pr it (some "review_checklist") with ⟨oC, rC⟩
  rw [hc] at hC
  rcases hr : create_file_with_title fail cfg FILE_TYPE_REVIEW_MINUTES (bf ++ [fmtYmd d])
      ("レビュー記録表_" ++ pm ++ "_" ++ sfx) pr it (some "review_minutes") with ⟨oR, rR⟩
  rw [hr] at hR
  cases rM with
  | error e => simpa [create_review_files, hs] using goodWrites_mkdir_cons hseq
  | ok u =>
    cases rC with
    | error e =>
      simpa [create_review_files, hs, hc] using
        goodWrites_mkdir_cons (goodWrites_append hseq hC)
    | ok u2 =>
      cases rR with
      | error e =>
        simpa [create_review_files, hs, hc, hr] using
          goodWrites_mkdir_cons (goodWrites_append hseq (goodWrites_append hC hR))
      | ok u3 =>
        simpa [create_review_files, hs, hc, hr] using
          goodWrites_mkdir_cons (goodWrites_append hseq (goodWrites_append hC hR))

theorem goodWrites_collectDocs (fail : Fail) (cfg : Config) (pd : List String)
    (pr it : String) (specs : List (String × String)) :
    goodWrites fail pr it (collectDocs fail cfg pd pr it specs).1 := by
  induction specs with
  | nil => exact goodWrites_nil fail pr it
  | cons mk rest ih =>
    have hx := goodWrites_cfwt fail cfg FILE_TYPE_MAIN pd mk.1 pr it (some mk.2)
    rcases hfx : create_file_with_title fail cfg FILE_TYPE_MAIN pd mk.1 pr it (some mk.2)
      with ⟨ops, r⟩
    rw [hfx] at hx
    rcases hs : collectDocs fail cfg pd pr it rest with ⟨ops2, r2⟩
    rw [hs] at ih
    cases r with
    | error e => simpa [collectDocs, hfx] using hx
    | ok v =>
      cases r2 with
      | error e => simpa [collectDocs, hfx, hs] using goodWrites_append hx ih
      | ok v2 => simpa [collectDocs, hfx, hs] using goodWrites_append hx ih

theorem goodWrites_mainDocsOps (fail : Fail) (cfg : Config) (pd : List String)
    (pr it : String) (pi : Option ProcInfo) :
    goodWrites fail pr it (mainDocsOps fail cfg pd pr it pi).1 := by
  match pi with
  | none => exact goodWrites_nil fail pr it
  | some (.pyFile m) =>
    have hx := goodWrites_cfwt fail cfg FILE_TYPE_PYTHON pd m pr it none
    rcases hfx : create_file_with_title fail cfg FILE_TYPE_PYTHON pd m pr it none with ⟨ops, r⟩
    rw [hfx] at hx
    cases r <;> simpa [mainDocsOps, hfx] using hx
  | some (.doc m k) =>
    have hx := goodWrites_cfwt fail cfg FILE_TYPE_MAIN pd m pr it (some k)
    rcases hfx : create_file_with_title fail cfg FILE_TYPE_MAIN pd m pr it (some k) with ⟨ops, r⟩
    rw [hfx] at hx
    cases r <;> simpa [mainDocsOps, hfx] using hx
  | some (.docs specs) => exact goodWrites_collectDocs fail cfg pd pr it specs

theorem goodWrites_processPhase (fail : Fail) (cfg : Config) (pr it : String)
    (base : List String) (d1 d2 d3 d4 : PyDate) (pp : String × String)
    (ts : List (String × String)) (h6 : cfg.title = some ts) :
    goodWrites fail pr it (processPhase fail cfg pr it base d1 d2 d3 d4 pp).1 := by
  obtain ⟨stems, hM0⟩ := mainDocsOps_ok fail cfg (base ++ [pp.1 ++ "." ++ pp.2]) pr it
    (PROCESS_FILES pp.1) ts h6
  rcases hm : mainDocsOps fail cfg (base ++ [pp.1 ++ "." ++ pp.2]) pr it (PROCESS_FILES pp.1)
    with ⟨oM, rM⟩
  have hrM : rM = Except.ok stems := by rw [hm] at hM0; exact hM0
  subst hrM
  have hI1 := crf_ok fail cfg (base ++ [pp.1 ++ "." ++ pp.2, "成果物", "内部レビュー"]) d1
    "社内_1回目" pr it pp.1 pp.2 stems ts h6
  rcases h1 : create_review_files fail cfg
      (base ++ [pp.1 ++ "." ++ pp.2, "成果物", "内部レビュー"]) d1
      "社内_1回目" pr it pp.1 pp.2 stems with ⟨oI1, rI1⟩
  have hrI1 : rI1 = Except.ok (base ++ [pp.1 ++ "." ++ pp.2, "成果物", "内部レビュー"]
      ++ [fmtYmd d1]) := by rw [h1] at hI1; exact hI1
  subst hrI1
  have hI2ex : ∃ oI2 v2, (if pp.1 = "030" then
      create_review_files fail cfg
        (base ++ [pp.1 ++ "." ++ pp.2, "成果物", "内部レビュー"]) d2
        "社内_2回目" pr it pp.1 pp.2 stems
    else ([], Except.ok [])) = (oI2, Except.ok v2) := by
    by_cases hp : pp.1 = "030"
    · rw [if_pos hp]
      have hcr := crf_ok fail cfg
        (base ++ [pp.1 ++ "." ++ pp.2, "成果物", "内部レビュー"]) d2
        "社内_2回目" pr it pp.1 pp.2 stems ts h6
      rcases hx : create_review_files fail cfg
        (base ++ [pp.1 ++ "." ++ pp.2, "成果物", "内部レビュー"]) d2
        "社内_2回目" pr it pp.1 pp.2 stems with ⟨o, r⟩
      rw [hx] at hcr
      exact ⟨o, base ++ [pp.1 ++ "." ++ pp.2, "成果物", "内部レビュー"] ++ [fmtYmd d2],
        congrArg (Prod.mk o) (show r = Except.ok (base ++ [pp.1 ++ "." ++ pp.2, "成果物",
          "内部レビュー"] ++ [fmtYmd d2]) from hcr)⟩
    · rw [if_neg hp]
      exact ⟨[], [], rfl⟩
  obtain ⟨oI2, v2, h2⟩ := hI2ex
  have hE1 := crf_ok fail cfg (base ++ [pp.1 ++ "." ++ pp.2, "成果物", "外部レビュー"]) d3
    "社外_1回目" pr it pp.1 pp.2 stems ts h6
  rcases h3 : create_review_files fail cfg
      (base ++ [pp.1 ++ "." ++ pp.2, "成果物", "外部レビュー"]) d3
      "社外_1回目" pr it pp.1 pp.2 stems with ⟨oE1, rE1⟩
  have hrE1 : rE1 = Except.ok (base ++ [pp.1 ++ "." ++ pp.2, "成果物", "外部レビュー"]
      ++ [fmtYmd d3]) := by rw [h3] at hE1; exact hE1
  subst hrE1
  obtain ⟨vB, hB0⟩ := cfwt_ok fail cfg FILE_TYPE_MAIN
    (base ++ [pp.1 ++ "." ++ pp.2, "成果物", "外部レビュー", fmtYmd d3]) "調査B" pr it
    (some "research") ts h6
  rcases h4 : create_file_with_title fail cfg FILE_TYPE_MAIN
      (base ++ [pp.1 ++ "." ++ pp.2, "成果物", "外部レビュー", fmtYmd d3]) "調査B" pr it
      (some "research") with ⟨oB, rB⟩
  have hrB : rB = Except.ok vB := by rw [h4] at hB0; exact hB0
  subst hrB
  have hE2 := crf_ok fail cfg (base ++ [pp.1 ++ "." ++ pp.2, "成果物", "外部レビュー"]) d4
    "社外_2回目" pr it pp.1 pp.2 [] ts h6
  rcases h5 : create_review_files fail cfg
      (base ++ [pp.1 ++ "." ++ pp.2, "成果物", "外部レビュー"]) d4
      "社外_2回目" pr it pp.1 pp.2 [] with ⟨oE2, rE2⟩
  have hrE2 : rE2 = Except.ok (base ++ [pp.1 ++ "." ++ pp.2, "成果物", "外部レビュー"]
      ++ [fmtYmd d4]) := by rw [h5] at hE2; exact hE2
  subst hrE2
  have gM : goodWrites fail pr it oM := by
    have g := goodWrites_mainDocsOps fail cfg (base ++ [pp.1 ++ "." ++ pp.2]) pr it
      (PROCESS_FILES pp.1)
    rw [hm] at g; exact g
  have gI1 : goodWrites fail pr it oI1 := by
    have g := goodWrites_crf fail cfg (base ++ [pp.1 ++ "." ++ pp.2, "成果物", "内部レビュー"]) d1
      "社内_1回目" pr it pp.1 pp.2 stems
    rw [h1] at g; exact g
  have gI2 : goodWrites fail pr it oI2 := by
    by_cases hp : pp.1 = "030"
    · rw [if_pos hp] at h2
      have g := goodWrites_crf fail cfg (base ++ [pp.1 ++ "." ++ pp.2, "成果物", "内部レビュー"]) d2
        "社内_2回目" pr it pp.1 pp.2 stems
      rw [h2] at g; exact g
    · rw [if_neg hp] at h2
      have : oI2 = [] := by
        have := congrArg Prod.fst h2
        simpa using this.symm
      rw [this]; exact goodWrites_nil fail pr it
  have gE1 : goodWrites fail pr it oE1 := by
    have g := goodWrites_crf fail cfg (base ++ [pp.1 ++ "." ++ pp.2, "成果物", "外部レビュー"]) d3
      "社外_1回目" pr it pp.1 pp.2 stems
    rw [h3] at g; exact g
  have gB : goodWrites fail pr it oB := by
    have g := goodWrites_cfwt fail cfg FILE_TYPE_MAIN
      (base ++ [pp.1 ++ "." ++ pp.2, "成果物", "外部レビュー", fmtYmd d3]) "調査B" pr it
      (some "research")
    rw [h4] at g; exact g
  have gE2 : goodWrites fail pr it oE2 := by
    have g := goodWrites_crf fail cfg (base ++ [pp.1 ++ "." ++ pp.2, "成果物", "外部レビュー"]) d4
      "社外_2回目" pr it pp.1 pp.2 []
    rw [h5] at g; exact g
  intro p e hmem
  by_cases hp : pp.1 = "030"
  · rw [hp] at hm h1 h2 h3 h4 h5
    rw [if_pos rfl] at h2
    simp only [String.reduceAppend] at hm h1 h2 h3 h4 h5
    simp [processPhase, hp, hm, h1, h2, h3, h4, h5] at hmem
    rcases hmem with h | h | h | h | h | h
    · exact gM p e h
    · exact gI1 p e h
    · exact gI2 p e h
    · exact gE1 p e h
    · exact gB p e h
    · exact gE2 p e h
  · rw [if_neg hp] at h2
    have hI2nil : oI2 = [] := by
      have := congrArg Prod.fst h2
      simpa using this.symm
    subst hI2nil
    by_cases hpe : pp.1 ∈ (["030", "040", "080", "090"] : List String)
    · simp [processPhase, hm, h1, h3, h4, h5, hp, hpe] at hmem
      rcases hmem with h | h | h
      · exact gM p e h
      · exact gI1 p e h
      · exact gE1 p e h
    · simp [processPhase, hm, h1, h3, h4, h5, hp, hpe] at hmem
      rcases hmem with h | h
      · exact gM p e h
      · exact gI1 p e h

/-- Every file written by a run of `test.py`'s generator (with the three
required configuration values and a `[title]` section present) is a
`create_dummy_excel_file` artifact for its own destination path, named
`<stem>_<project>_<item>.xlsx`. -/
theorem goodWrites_run (fail : Fail) (cfg : Config) (today : PyDate)
    (ps pj ts : List (String × String)) (r P I : String)
    (h1 : cfg.paths = some ps) (h2 : secGet ps "sample_teams_root" = some r)
    (h3 : cfg.project = some pj) (h4 : secGet pj "project_name" = some P)
    (h5 : secGet pj "item_name" = some I) (h6 : cfg.title = some ts) :
    goodWrites fail P I (create_sample_teams_structure fail cfg today).1 := by
  have hseq := goodWrites_seqOps fail P I
    (processPhase fail cfg P I (pySplit r '/' ++ [P, I, quarterName today])
      (subDays today 7) (subDays today 5) (subDays today 3) (subDays today 1)) PROCESS_MAP
    (fun pp => goodWrites_processPhase fail cfg P I _ _ _ _ _ pp ts h6)
  rcases hs : seqOps (processPhase fail cfg P I
      (pySplit r '/' ++ [P, I, quarterName today])
      (subDays today 7) (subDays today 5) (subDays today 3) (subDays today 1)) PROCESS_MAP
    with ⟨ops, rr⟩
  rw [hs] at hseq
  intro p e hmem
  simp [create_sample_teams_structure, cfgRead, h1, h2, h3, h4, h5, hs] at hmem
  exact hseq p e hmem

end TestPy





/-! Demonstration configurations used by witnesses and counterexamples. -/

/-- A small `[title]` section for demonstrations. -/
def demoTitles : List (String × String) :=
  [("research", "T"), ("review_checklist", "CL"), ("review_minutes", "MN")]

/-- A complete demonstration configuration. -/
def demoCfg : Config :=
  ⟨some [("sample_teams_root", "/r")], some [("project_name", "P"), ("item_name", "I")],
   some demoTitles⟩

/-- A demonstration current date (2025-02-15, first quarter). -/
def demoDate : PyDate := ⟨2025, 2, 15⟩

/-- A configuration whose `[Paths]`/`[Project]` sections are complete but
whose `[title]` section is missing. -/
def cfgNoTitle : Config :=
  ⟨some [("sample_teams_root", "/r")], some [("project_name", "P"), ("item_name", "I")], none⟩

/-- A configuration with no `[Project]` section. -/
def cfgNoProject : Config :=
  ⟨some [("sample_teams_root", "/r")], none, some demoTitles⟩

/-- The configuration named by the C8 scenario:
`{root="/tmp/out", project="P1", item="I1", titles={research:"T"}}`. -/
def c8Cfg : Config :=
  ⟨some [("sample_teams_root", "/tmp/out")], some [("project_name", "P1"), ("item_name", "I1")],
   some [("research", "T")]⟩

/-- A configuration providing every title key that
`create_sample_teams_structure.py` requires. -/
def c10Cfg : Config :=
  ⟨some [("sample_teams_root", "/r")], some [("project_name", "P"), ("item_name", "I")],
   some [("research", "TR"), ("sys_design", "TD"), ("unit_test_doc", "TU"),
         ("unit_test_rst", "TV"), ("sys_test_doc", "TS"), ("sys_test_rst", "TW"),
         ("test_rst_report", "TX")]⟩

set_option maxHeartbeats 4000000

/-- C1: for every valid configuration (root path, project name, item name
and a `[title]` section all present), one run of
`create_sample_teams_structure` creates under the quarter bucket exactly
the seven phase folders of `PROCESS_MAP`, each named `<code>.<name>`, in
ascending numeric code order, and no other phase folders. -/
theorem claim_C1_phase_folders (cfg : Config) (today : PyDate)
    (ps pj ts : List (String × String)) (r P I : String)
    (h1 : cfg.paths = some ps) (h2 : secGet ps "sample_teams_root" = some r)
    (h3 : cfg.project = some pj) (h4 : secGet pj "project_name" = some P)
    (h5 : secGet pj "item_name" = some I) (h6 : cfg.title = some ts) :
    (((TestPy.create_sample_teams_structure noFail cfg today).1).filterMap
        (dirChildOf (pySplit r '/' ++ [P, I, TestPy.quarterName today]))).dedup
      = ["030.調査", "040.設計", "050.製造", "060.UD作成", "070.UD消化",
         "080.SD作成", "090.SD消化"] := by
  simp [TestPy.create_sample_teams_structure, h1, h2, h3, h4, h5, h6, cfgRead,
    TestPy.PROCESS_MAP, TestPy.seqOps, TestPy.processPhase, TestPy.mainDocsOps,
    TestPy.PROCESS_FILES, TestPy.create_review_files, TestPy.create_file_with_title,
    TestPy.create_dummy_excel_file, TestPy.collectDocs, TestPy.stemOf, TestPy.FILE_TYPE,
    TestPy.FILE_TYPE_MAIN, TestPy.FILE_TYPE_PYTHON, TestPy.FILE_TYPE_REVIEW_CHECKLIST,
    TestPy.FILE_TYPE_REVIEW_MINUTES, noFail, dirChildOf, stripChild, Except.map]

/-- Witness for C1 at a concrete configuration and date. -/
theorem claim_C1_phase_folders_witness :
    (((TestPy.create_sample_teams_structure noFail demoCfg demoDate).1).filterMap
        (dirChildOf (pySplit "/r" '/' ++ ["P", "I", TestPy.quarterName demoDate]))).dedup
      = ["030.調査", "040.設計", "050.製造", "060.UD作成", "070.UD消化",
         "080.SD作成", "090.SD消化"] :=
  claim_C1_phase_folders demoCfg demoDate _ _ _ "/r" "P" "I" rfl rfl rfl rfl rfl rfl

/-- C4 counterexample: in a concrete valid run, the fourth phase of the
catalog (`060.UD作成`) gets no dated external-review cycle (its
external-review subfolder stays empty), while the sixth phase
(`080.SD作成`) does get one — the external-review phases are the first,
second, sixth and last of the catalog, not the fourth. -/
theorem claim_C4_counterexample :
    (((TestPy.create_sample_teams_structure noFail demoCfg demoDate).1).filterMap
        (dirChildOf ["", "r", "P", "I", "2025_1Q", "060.UD作成", "成果物", "外部レビュー"])).dedup
      = []
    ∧ (((TestPy.create_sample_teams_structure noFail demoCfg demoDate).1).filterMap
        (dirChildOf ["", "r", "P", "I", "2025_1Q", "080.SD作成", "成果物", "外部レビュー"])).dedup
      = ["20250212"] := by
  constructor <;> decide

/-- C4 amended: every phase folder's `成果物` folder gets both review
subfolders; the dated internal cycles are two (dates `today-7d`,
`today-5d`) for the first phase and one for every other phase; the dated
external cycles are two (dates `today-3d`, `today-1d`) for the first
phase, one for `040`/`080`/`090` (the first, second, sixth and last
catalog entries), and none for the remaining phases. -/
theorem claim_C4_amended (cfg : Config) (today : PyDate)
    (ps pj ts : List (String × String)) (r P I : String)
    (h1 : cfg.paths = some ps) (h2 : secGet ps "sample_teams_root" = some r)
    (h3 : cfg.project = some pj) (h4 : secGet pj "project_name" = some P)
    (h5 : secGet pj "item_name" = some I) (h6 : cfg.title = some ts)
    (h12 : fmtYmd (subDays today 7) ≠ fmtYmd (subDays today 5))
    (h34 : fmtYmd (subDays today 3) ≠ fmtYmd (subDays today 1)) :
    (TestPy.PROCESS_MAP.map (fun pp =>
        (((TestPy.create_sample_teams_structure noFail cfg today).1).filterMap
          (dirChildOf (pySplit r '/' ++ [P, I, TestPy.quarterName today,
            pp.1 ++ "." ++ pp.2, "成果物"]))).dedup)
      = [["内部レビュー", "外部レビュー"], ["内部レビュー", "外部レビュー"], ["内部レビュー", "外部レビュー"],
         ["内部レビュー", "外部レビュー"], ["内部レビュー", "外部レビュー"], ["内部レビュー", "外部レビュー"],
         ["内部レビュー", "外部レビュー"]])
    ∧ (TestPy.PROCESS_MAP.map (fun pp =>
        (((TestPy.create_sample_teams_structure noFail cfg today).1).filterMap
          (dirChildOf (pySplit r '/' ++ [P, I, TestPy.quarterName today,
            pp.1 ++ "." ++ pp.2, "成果物", "内部レビュー"]))).dedup)
      = [[fmtYmd (subDays today 7), fmtYmd (subDays today 5)], [fmtYmd (subDays today 7)],
         [fmtYmd (subDays today 7)], [fmtYmd (subDays today 7)], [fmtYmd (subDays today 7)],
         [fmtYmd (subDays today 7)], [fmtYmd (subDays today 7)]])
    ∧ (TestPy.PROCESS_MAP.map (fun pp =>
        (((TestPy.create_sample_teams_structure noFail cfg today).1).filterMap
          (dirChildOf (pySplit r '/' ++ [P, I, TestPy.quarterName today,
            pp.1 ++ "." ++ pp.2, "成果物", "外部レビュー"]))).dedup)
      = [[fmtYmd (subDays today 3), fmtYmd (subDays today 1)], [fmtYmd (subDays today 3)], [],
         [], [], [fmtYmd (subDays today 3)], [fmtYmd (subDays today 3)]]) := by
  refine ⟨?_, ?_, ?_⟩ <;>
    simp [TestPy.create_sample_teams_structure, h1, h2, h3, h4, h5, h6, cfgRead,
      TestPy.PROCESS_MAP, TestPy.seqOps, TestPy.processPhase, TestPy.mainDocsOps,
      TestPy.PROCESS_FILES, TestPy.create_review_files, TestPy.create_file_with_title,
      TestPy.create_dummy_excel_file, TestPy.collectDocs, TestPy.stemOf, TestPy.FILE_TYPE,
      TestPy.FILE_TYPE_MAIN, TestPy.FILE_TYPE_PYTHON, TestPy.FILE_TYPE_REVIEW_CHECKLIST,
      TestPy.FILE_TYPE_REVIEW_MINUTES, noFail, dirChildOf, stripChild, Except.map, h12, h34,
      List.dedup_cons_of_mem, List.dedup_cons_of_not_mem]

/-- Witness for the amended C4 at a concrete configuration and date. -/
theorem claim_C4_amended_witness :
    TestPy.PROCESS_MAP.map (fun pp =>
        (((TestPy.create_sample_teams_structure noFail demoCfg demoDate).1).filterMap
          (dirChildOf (pySplit "/r" '/' ++ ["P", "I", TestPy.quarterName demoDate,
            pp.1 ++ "." ++ pp.2, "成果物", "外部レビュー"]))).dedup)
      = [[fmtYmd (subDays demoDate 3), fmtYmd (subDays demoDate 1)], [fmtYmd (subDays demoDate 3)],
         [], [], [], [fmtYmd (subDays demoDate 3)], [fmtYmd (subDays demoDate 3)]] :=
  (claim_C4_amended demoCfg demoDate _ _ _ "/r" "P" "I" rfl rfl rfl rfl rfl rfl
    (by decide) (by decide)).2.2

/-- C5 counterexample: in a concrete valid run, the manufacturing phase's
dated internal-review folder contains a main-document copy
`xxx_P_I.xlsx` besides the checklist and minutes — the recorded stem
list of phase `050` is `["xxx"]` (the `.py` marker's stem), not empty. -/
theorem claim_C5_counterexample :
    (((TestPy.create_sample_teams_structure noFail demoCfg demoDate).1).filterMap
        (fileChildOf ["", "r", "P", "I", "2025_1Q", "050.製造", "成果物", "内部レビュー", "20250208"]))
      = ["xxx_P_I.xlsx", "レビューチェックリスト_050_社内_1回目_P_I.xlsx",
         "レビュー記録表_製造_社内_1回目_P_I.xlsx"] := by decide

/-- C5 amended: the manufacturing phase's folder directly contains
exactly one file, the empty marker `xxx.py` created by `touch` (no
document file); the phase participates in review creation with the
recorded stem list `["xxx"]`, so its dated review folder contains a main
document `xxx_<project>_<item>.xlsx` besides the checklist and minutes. -/
theorem claim_C5_amended (cfg : Config) (today : PyDate)
    (ps pj ts : List (String × String)) (r P I : String)
    (h1 : cfg.paths = some ps) (h2 : secGet ps "sample_teams_root" = some r)
    (h3 : cfg.project = some pj) (h4 : secGet pj "project_name" = some P)
    (h5 : secGet pj "item_name" = some I) (h6 : cfg.title = some ts) :
    (((TestPy.create_sample_teams_structure noFail cfg today).1).filterMap
        (fileChildOf (pySplit r '/' ++ [P, I, TestPy.quarterName today, "050.製造"])))
      = ["xxx.py"]
    ∧ Op.touch (pySplit r '/' ++ [P, I, TestPy.quarterName today, "050.製造", "xxx.py"])
        ∈ (TestPy.create_sample_teams_structure noFail cfg today).1
    ∧ (((TestPy.create_sample_teams_structure noFail cfg today).1).filterMap
        (fileChildOf (pySplit r '/' ++ [P, I, TestPy.quarterName today, "050.製造", "成果物",
          "内部レビュー", fmtYmd (subDays today 7)])))
      = ["xxx_" ++ P ++ "_" ++ I ++ ".xlsx",
         "レビューチェックリスト_050_社内_1回目_" ++ P ++ "_" ++ I ++ ".xlsx",
         "レビュー記録表_製造_社内_1回目_" ++ P ++ "_" ++ I ++ ".xlsx"] := by
  refine ⟨?_, ?_, ?_⟩ <;>
    simp [TestPy.create_sample_teams_structure, h1, h2, h3, h4, h5, h6, cfgRead,
      TestPy.PROCESS_MAP, TestPy.seqOps, TestPy.processPhase, TestPy.mainDocsOps,
      TestPy.PROCESS_FILES, TestPy.create_review_files, TestPy.create_file_with_title,
      TestPy.create_dummy_excel_file, TestPy.collectDocs, TestPy.stemOf, TestPy.FILE_TYPE,
      TestPy.FILE_TYPE_MAIN, TestPy.FILE_TYPE_PYTHON, TestPy.FILE_TYPE_REVIEW_CHECKLIST,
      TestPy.FILE_TYPE_REVIEW_MINUTES, noFail, fileChildOf, stripChild, Except.map]

/-- Witness for the amended C5 at a concrete configuration and date. -/
theorem claim_C5_amended_witness :
    ((TestPy.create_sample_teams_structure noFail demoCfg demoDate).1).filterMap
        (fileChildOf (pySplit "/r" '/' ++ ["P", "I", TestPy.quarterName demoDate, "050.製造"]))
      = ["xxx.py"] :=
  (claim_C5_amended demoCfg demoDate _ _ _ "/r" "P" "I" rfl rfl rfl rfl rfl rfl).1

/-- C6 counterexample: in a concrete valid run, the second external-review
cycle folder of the first phase (`20250214`) contains only the checklist
and minutes, while the variant `調査B_P_I.xlsx` is created inside the
first cycle's dated folder (`20250212`). -/
theorem claim_C6_counterexample :
    (((TestPy.create_sample_teams_structure noFail demoCfg demoDate).1).filterMap
        (fileChildOf ["", "r", "P", "I", "2025_1Q", "030.調査", "成果物", "外部レビュー", "20250214"]))
      = ["レビューチェックリスト_030_社外_2回目_P_I.xlsx", "レビュー記録表_調査_社外_2回目_P_I.xlsx"]
    ∧ (producedPaths (TestPy.create_sample_teams_structure noFail demoCfg demoDate).1).contains
        ["", "r", "P", "I", "2025_1Q", "030.調査", "成果物", "外部レビュー", "20250212",
         "調査B_P_I.xlsx"] = true := by
  constructor <;> decide

/-- C6 amended: the `調査B` variant document is created inside the FIRST
external-review cycle's dated folder (`today-3d`), which therefore holds
the stem-list copy, the checklist, the minutes and the variant; the
second cycle's dated folder (`today-1d`) is created with an empty stem
list and holds only its checklist and minutes. -/
theorem claim_C6_amended (cfg : Config) (today : PyDate)
    (ps pj ts : List (String × String)) (r P I : String)
    (h1 : cfg.paths = some ps) (h2 : secGet ps "sample_teams_root" = some r)
    (h3 : cfg.project = some pj) (h4 : secGet pj "project_name" = some P)
    (h5 : secGet pj "item_name" = some I) (h6 : cfg.title = some ts)
    (h34 : fmtYmd (subDays today 3) ≠ fmtYmd (subDays today 1)) :
    (((TestPy.create_sample_teams_structure noFail cfg today).1).filterMap
        (fileChildOf (pySplit r '/' ++ [P, I, TestPy.quarterName today, "030.調査", "成果物",
          "外部レビュー", fmtYmd (subDays today 3)])))
      = ["調査検討書_" ++ P ++ "_" ++ I ++ "_" ++ P ++ "_" ++ I ++ ".xlsx",
         "レビューチェックリスト_030_社外_1回目_" ++ P ++ "_" ++ I ++ ".xlsx",
         "レビュー記録表_調査_社外_1回目_" ++ P ++ "_" ++ I ++ ".xlsx",
         "調査B_" ++ P ++ "_" ++ I ++ ".xlsx"]
    ∧ (((TestPy.create_sample_teams_structure noFail cfg today).1).filterMap
        (fileChildOf (pySplit r '/' ++ [P, I, TestPy.quarterName today, "030.調査", "成果物",
          "外部レビュー", fmtYmd (subDays today 1)])))
      = ["レビューチェックリスト_030_社外_2回目_" ++ P ++ "_" ++ I ++ ".xlsx",
         "レビュー記録表_調査_社外_2回目_" ++ P ++ "_" ++ I ++ ".xlsx"] := by
  constructor <;>
    simp [TestPy.create_sample_teams_structure, h1, h2, h3, h4, h5, h6, cfgRead,
      TestPy.PROCESS_MAP, TestPy.seqOps, TestPy.processPhase, TestPy.mainDocsOps,
      TestPy.PROCESS_FILES, TestPy.create_review_files, TestPy.create_file_with_title,
      TestPy.create_dummy_excel_file, TestPy.collectDocs, TestPy.stemOf, TestPy.FILE_TYPE,
      TestPy.FILE_TYPE_MAIN, TestPy.FILE_TYPE_PYTHON, TestPy.FILE_TYPE_REVIEW_CHECKLIST,
      TestPy.FILE_TYPE_REVIEW_MINUTES, noFail, fileChildOf, stripChild, Except.map, h34,
      h34.symm]

/-- Witness for the amended C6 at a concrete configuration and date. -/
theorem claim_C6_amended_witness :
    ((TestPy.create_sample_teams_structure noFail demoCfg demoDate).1).filterMap
        (fileChildOf (pySplit "/r" '/' ++ ["P", "I", TestPy.quarterName demoDate, "030.調査",
          "成果物", "外部レビュー", fmtYmd (subDays demoDate 1)]))
      = ["レビューチェックリスト_030_社外_2回目_P_I.xlsx", "レビュー記録表_調査_社外_2回目_P_I.xlsx"] := by
  have h := (claim_C6_amended demoCfg demoDate _ _ _ "/r" "P" "I" rfl rfl rfl rfl rfl rfl
    (by decide)).2
  simpa using h

/-- C7 counterexample: in a concrete valid run, the dated review folder of
the first phase holds `調査検討書_P_I_P_I.xlsx` — the recorded stem
already contains `_P_I`, so the copy's name repeats project and item and
differs from the original `調査検討書_P_I.xlsx`. -/
theorem claim_C7_counterexample :
    (((TestPy.create_sample_teams_structure noFail demoCfg demoDate).1).filterMap
        (fileChildOf ["", "r", "P", "I", "2025_1Q", "030.調査", "成果物", "内部レビュー", "20250208"]))
      = ["調査検討書_P_I_P_I.xlsx", "レビューチェックリスト_030_社内_1回目_P_I.xlsx",
         "レビュー記録表_調査_社内_1回目_P_I.xlsx"] := by decide

/-- C7 amended: every file written by the run is named
`<prefix>_<project>_<item>.xlsx` for the prefix passed to
`create_file_with_title`; for the main-document copies inside dated
review-cycle folders that prefix is the original file's full stem (which
already ends in `_<project>_<item>`), so the copies are named
`<orig-stem>_<project>_<item>.xlsx` — project and item appear twice and
the copies do not bear the originals' names.  (The `050` marker `xxx.py`
is created by `touch`, not by a write, and carries neither name.) -/
theorem claim_C7_amended (cfg : Config) (today : PyDate)
    (ps pj ts : List (String × String)) (r P I : String)
    (h1 : cfg.paths = some ps) (h2 : secGet ps "sample_teams_root" = some r)
    (h3 : cfg.project = some pj) (h4 : secGet pj "project_name" = some P)
    (h5 : secGet pj "item_name" = some I) (h6 : cfg.title = some ts)
    (h12 : fmtYmd (subDays today 7) ≠ fmtYmd (subDays today 5)) :
    (∀ p e, Op.write p e ∈ (TestPy.create_sample_teams_structure noFail cfg today).1 →
      ∃ pre, lastSegD p = pre ++ "_" ++ P ++ "_" ++ I ++ ".xlsx")
    ∧ (((TestPy.create_sample_teams_structure noFail cfg today).1).filterMap
        (fileChildOf (pySplit r '/' ++ [P, I, TestPy.quarterName today, "030.調査", "成果物",
          "内部レビュー", fmtYmd (subDays today 7)])))
      = ["調査検討書_" ++ P ++ "_" ++ I ++ "_" ++ P ++ "_" ++ I ++ ".xlsx",
         "レビューチェックリスト_030_社内_1回目_" ++ P ++ "_" ++ I ++ ".xlsx",
         "レビュー記録表_調査_社内_1回目_" ++ P ++ "_" ++ I ++ ".xlsx"] := by
  constructor
  · intro p e hmem
    obtain ⟨ty, title, pre, _, hname⟩ :=
      TestPy.goodWrites_run noFail cfg today ps pj ts r P I h1 h2 h3 h4 h5 h6 p e hmem
    exact ⟨pre, hname⟩
  · simp [TestPy.create_sample_teams_structure, h1, h2, h3, h4, h5, h6, cfgRead,
      TestPy.PROCESS_MAP, TestPy.seqOps, TestPy.processPhase, TestPy.mainDocsOps,
      TestPy.PROCESS_FILES, TestPy.create_review_files, TestPy.create_file_with_title,
      TestPy.create_dummy_excel_file, TestPy.collectDocs, TestPy.stemOf, TestPy.FILE_TYPE,
      TestPy.FILE_TYPE_MAIN, TestPy.FILE_TYPE_PYTHON, TestPy.FILE_TYPE_REVIEW_CHECKLIST,
      TestPy.FILE_TYPE_REVIEW_MINUTES, noFail, fileChildOf, stripChild, Except.map, h12,
      h12.symm]

/-- Witness for the amended C7: the first phase's main document write in a
concrete run is named `調査検討書_P_I.xlsx` (prefix `調査検討書`). -/
theorem claim_C7_amended_witness :
    ∃ pre, lastSegD ["", "r", "P", "I", "2025_1Q", "030.調査", "調査検討書_P_I.xlsx"]
      = pre ++ "_" ++ "P" ++ "_" ++ "I" ++ ".xlsx" :=
  (claim_C7_amended demoCfg demoDate _ _ _ "/r" "P" "I" rfl rfl rfl rfl rfl rfl (by decide)).1
    ["", "r", "P", "I", "2025_1Q", "030.調査", "調査検討書_P_I.xlsx"]
    (TestPy.dummyEntry noFail 1 "T" "P" "I"
      ["", "r", "P", "I", "2025_1Q", "030.調査", "調査検討書_P_I.xlsx"])
    (by decide)

/-- C8: the time bucket is `<year>_<quarter>Q` with
`quarter = (month - 1) / 3 + 1`; for the claimed configuration
(`root=/tmp/out`, project `P1`, item `I1`, `titles={research: T}`) and a
current date in the first quarter, the quarter folder is `<year>_1Q` and
the path `/tmp/out/P1/I1/<year>_1Q/030.調査/調査検討書_P1_I1.xlsx` exists
after a run. -/
theorem claim_C8_quarter_path (today : PyDate)
    (hm : today.month = 1 ∨ today.month = 2 ∨ today.month = 3) :
    pySplit "/tmp/out" '/' = ["", "tmp", "out"]
    ∧ TestPy.quarterName today = toString today.year ++ "_1Q"
    ∧ (applyOps emptyFS (TestPy.create_sample_teams_structure noFail c8Cfg today).1
        (pySplit "/tmp/out" '/' ++ ["P1", "I1", TestPy.quarterName today, "030.調査",
          "調査検討書_P1_I1.xlsx"])).isSome := by
  refine ⟨by decide, ?_, ?_⟩
  · have hq : (today.month - 1) / 3 + 1 = 1 := by
      rcases hm with h | h | h <;> rw [h]
    rw [TestPy.quarterName, hq, String.append_assoc, String.append_assoc]
    exact congrArg (fun s => toString today.year ++ s) (by decide)
  · have hmem : Op.write (pySplit "/tmp/out" '/' ++ ["P1", "I1", TestPy.quarterName today,
        "030.調査", "調査検討書_P1_I1.xlsx"])
        (TestPy.dummyEntry noFail 1 "T" "P1" "I1" (pySplit "/tmp/out" '/' ++ ["P1", "I1",
          TestPy.quarterName today, "030.調査", "調査検討書_P1_I1.xlsx"]))
        ∈ (TestPy.create_sample_teams_structure noFail c8Cfg today).1 := by
      simp [TestPy.create_sample_teams_structure, c8Cfg, cfgRead, secGet, noFail,
        TestPy.PROCESS_MAP, TestPy.seqOps, TestPy.processPhase, TestPy.mainDocsOps,
        TestPy.PROCESS_FILES, TestPy.create_review_files, TestPy.create_file_with_title,
        TestPy.create_dummy_excel_file, TestPy.collectDocs, TestPy.stemOf, TestPy.FILE_TYPE,
        TestPy.FILE_TYPE_MAIN, TestPy.FILE_TYPE_PYTHON, TestPy.FILE_TYPE_REVIEW_CHECKLIST,
        TestPy.FILE_TYPE_REVIEW_MINUTES, Except.map]
    exact applyOps_isSome_of_write _ _ _ hmem emptyFS

/-- Witness for C8 at the demonstration date (February, first quarter)
with the always-succeeding writer. -/
theorem claim_C8_quarter_path_witness :
    TestPy.quarterName demoDate = toString demoDate.year ++ "_1Q"
    ∧ (applyOps emptyFS (TestPy.create_sample_teams_structure noFail c8Cfg demoDate).1
        (pySplit "/tmp/out" '/' ++ ["P1", "I1", TestPy.quarterName demoDate, "030.調査",
          "調査検討書_P1_I1.xlsx"])).isSome :=
  ⟨(claim_C8_quarter_path demoDate (Or.inr (Or.inl rfl))).2.1,
   (claim_C8_quarter_path demoDate (Or.inr (Or.inl rfl))).2.2⟩

/-- C2 counterexample: a configuration missing the whole `[title]`
section (hence every title entry) does not make the generator "report
the missing name and abort without producing output": the run crashes
with an uncaught `KeyError('title')` only after the root folder
`/r/P/I` has already been created. -/
theorem claim_C2_counterexample :
    (TestPy.create_sample_teams_structure noFail cfgNoTitle demoDate).2 = Outcome.crashed "title"
    ∧ (producedPaths (TestPy.create_sample_teams_structure noFail cfgNoTitle demoDate).1).contains
        ["", "r", "P", "I"] = true := by
  constructor <;> decide

/-- C2 amended: a missing `sample_teams_root`, `project_name` or
`item_name` (key or section) is reported by exactly the missing
section/key name and aborts before creating anything — in particular a
missing `[Project]` section creates no root folder; but `[title]`
entries are never individually required (lookups fall back), and a
missing `[title]` section crashes the run only after the root folder has
been created, while a present `[title]` section (with any entries) lets
the run complete. -/
theorem claim_C2_amended (cfg : Config) (today : PyDate) (fail : Fail) :
    (cfg.paths = none →
      TestPy.create_sample_teams_structure fail cfg today = ([], Outcome.configError "Paths"))
    ∧ (∀ ps, cfg.paths = some ps → secGet ps "sample_teams_root" = none →
      TestPy.create_sample_teams_structure fail cfg today
        = ([], Outcome.configError "sample_teams_root"))
    ∧ (∀ ps r, cfg.paths = some ps → secGet ps "sample_teams_root" = some r →
      cfg.project = none →
      TestPy.create_sample_teams_structure fail cfg today = ([], Outcome.configError "Project"))
    ∧ (∀ ps r pj, cfg.paths = some ps → secGet ps "sample_teams_root" = some r →
      cfg.project = some pj → secGet pj "project_name" = none →
      TestPy.create_sample_teams_structure fail cfg today
        = ([], Outcome.configError "project_name"))
    ∧ (∀ ps r pj P, cfg.paths = some ps → secGet ps "sample_teams_root" = some r →
      cfg.project = some pj → secGet pj "project_name" = some P →
      secGet pj "item_name" = none →
      TestPy.create_sample_teams_structure fail cfg today
        = ([], Outcome.configError "item_name"))
    ∧ (∀ ps r pj P I, cfg.paths = some ps → secGet ps "sample_teams_root" = some r →
      cfg.project = some pj → secGet pj "project_name" = some P →
      secGet pj "item_name" = some I → cfg.title = none →
      (TestPy.create_sample_teams_structure fail cfg today).2 = Outcome.crashed "title"
        ∧ Op.mkdir (pySplit r '/' ++ [P, I])
            ∈ (TestPy.create_sample_teams_structure fail cfg today).1)
    ∧ (∀ ps r pj P I ts, cfg.paths = some ps → secGet ps "sample_teams_root" = some r →
      cfg.project = some pj → secGet pj "project_name" = some P →
      secGet pj "item_name" = some I → cfg.title = some ts →
      (TestPy.create_sample_teams_structure fail cfg today).2 = Outcome.completed) := by
  refine ⟨?_, ?_, ?_, ?_, ?_, ?_, ?_⟩
  · intro h1
    simp [TestPy.create_sample_teams_structure, cfgRead, h1]
  · intro ps h1 h2
    simp [TestPy.create_sample_teams_structure, cfgRead, h1, h2]
  · intro ps r h1 h2 h3
    simp [TestPy.create_sample_teams_structure, cfgRead, h1, h2, h3]
  · intro ps r pj h1 h2 h3 h4
    simp [TestPy.create_sample_teams_structure, cfgRead, h1, h2, h3, h4]
  · intro ps r pj P h1 h2 h3 h4 h5
    simp [TestPy.create_sample_teams_structure, cfgRead, h1, h2, h3, h4, h5]
  · intro ps r pj P I h1 h2 h3 h4 h5 h6
    constructor <;>
      simp [TestPy.create_sample_teams_structure, cfgRead, h1, h2, h3, h4, h5, h6,
        TestPy.PROCESS_MAP, TestPy.seqOps, TestPy.processPhase, TestPy.mainDocsOps,
        TestPy.PROCESS_FILES, TestPy.create_file_with_title, TestPy.create_dummy_excel_file,
        TestPy.collectDocs, TestPy.stemOf, TestPy.FILE_TYPE, TestPy.FILE_TYPE_MAIN,
        TestPy.FILE_TYPE_PYTHON, TestPy.FILE_TYPE_REVIEW_CHECKLIST,
        TestPy.FILE_TYPE_REVIEW_MINUTES, TestPy.create_review_files, Except.map]
  · intro ps r pj P I ts h1 h2 h3 h4 h5 h6
    exact TestPy.run_completed fail cfg today ps pj ts r P I h1 h2 h3 h4 h5 h6

/-- Witness for the amended C2: a missing `[Project]` section yields the
error naming `Project` and no operations; the full demonstration
configuration completes. -/
theorem claim_C2_amended_witness :
    TestPy.create_sample_teams_structure noFail cfgNoProject demoDate
      = ([], Outcome.configError "Project")
    ∧ (TestPy.create_sample_teams_structure noFail demoCfg demoDate).2 = Outcome.completed :=
  ⟨(claim_C2_amended cfgNoProject demoDate noFail).2.2.1 [("sample_teams_root", "/r")] "/r"
      rfl rfl rfl,
   (claim_C2_amended demoCfg demoDate noFail).2.2.2.2.2.2 [("sample_teams_root", "/r")] "/r"
      [("project_name", "P"), ("item_name", "I")] "P" "I" demoTitles rfl rfl rfl rfl rfl rfl⟩

/-- C3 counterexample: when the rich writer fails for every artifact, the
produced path set is NOT the same as in a fully successful run — the
failed main documents are not recorded for the review step, so the dated
review folders lack their main-document copies (here
`調査検討書_P_I_P_I.xlsx`, present in the successful run only). -/
theorem claim_C3_counterexample :
    (producedPaths (TestPy.create_sample_teams_structure noFail demoCfg demoDate).1).contains
        ["", "r", "P", "I", "2025_1Q", "030.調査", "成果物", "内部レビュー", "20250208",
         "調査検討書_P_I_P_I.xlsx"] = true
    ∧ (producedPaths (TestPy.create_sample_teams_structure (allFail "boom") demoCfg
        demoDate).1).contains
        ["", "r", "P", "I", "2025_1Q", "030.調査", "成果物", "内部レビュー", "20250208",
         "調査検討書_P_I_P_I.xlsx"] = false := by
  constructor <;> decide

/-- C3 amended: an artifact whose rich write fails degrades to a
plain-text file at the same destination with the fixed fallback content,
and the run always completes (for every writer behaviour); when the
writer fails everywhere, every written file is such a fallback text, the
set of directories created is unchanged, and the produced paths are a
subset of the successful run's — but a strict one: dated review folders
lose the copies of the main documents that failed to be recorded. -/
theorem claim_C3_amended :
    (∀ (fail : Fail) (cfg : Config) (today : PyDate)
      (ps pj ts : List (String × String)) (r P I : String),
      cfg.paths = some ps → secGet ps "sample_teams_root" = some r →
      cfg.project = some pj → secGet pj "project_name" = some P →
      secGet pj "item_name" = some I → cfg.title = some ts →
      (TestPy.create_sample_teams_structure fail cfg today).2 = Outcome.completed)
    ∧ (∀ (err : String) (cfg : Config) (today : PyDate)
      (ps pj ts : List (String × String)) (r P I : String),
      cfg.paths = some ps → secGet ps "sample_teams_root" = some r →
      cfg.project = some pj → secGet pj "project_name" = some P →
      secGet pj "item_name" = some I → cfg.title = some ts →
      ∀ p e, Op.write p e
          ∈ (TestPy.create_sample_teams_structure (allFail err) cfg today).1 →
        e = Entry.text (TestPy.fallbackText (lastSegD p) err))
    ∧ (dirTargets (TestPy.create_sample_teams_structure noFail demoCfg demoDate).1).dedup
        = (dirTargets (TestPy.create_sample_teams_structure (allFail "boom") demoCfg
            demoDate).1).dedup
    ∧ (producedPaths (TestPy.create_sample_teams_structure (allFail "boom") demoCfg
          demoDate).1).all
        (fun p => (producedPaths (TestPy.create_sample_teams_structure noFail demoCfg
          demoDate).1).contains p) = true := by
  refine ⟨?_, ?_, by decide, by decide⟩
  · intro fail cfg today ps pj ts r P I h1 h2 h3 h4 h5 h6
    exact TestPy.run_completed fail cfg today ps pj ts r P I h1 h2 h3 h4 h5 h6
  · intro err cfg today ps pj ts r P I h1 h2 h3 h4 h5 h6 p e hmem
    obtain ⟨ty, title, pre, he, _⟩ :=
      TestPy.goodWrites_run (allFail err) cfg today ps pj ts r P I h1 h2 h3 h4 h5 h6 p e hmem
    rw [he]
    simp [TestPy.dummyEntry, allFail]

/-- Witness for the amended C3: a concrete degraded run completes and a
concrete artifact write is the text fallback. -/
theorem claim_C3_amended_witness :
    (TestPy.create_sample_teams_structure (allFail "boom") demoCfg demoDate).2
      = Outcome.completed
    ∧ Entry.text ("Dummy Excel Content (Fallback) - 調査検討書_P_I.xlsx\n" ++ "Error: boom\n")
      = Entry.text (TestPy.fallbackText
          (lastSegD ["", "r", "P", "I", "2025_1Q", "030.調査", "調査検討書_P_I.xlsx"]) "boom") :=
  ⟨claim_C3_amended.1 (allFail "boom") demoCfg demoDate _ _ _ "/r" "P" "I"
      rfl rfl rfl rfl rfl rfl,
   (claim_C3_amended.2.1 "boom" demoCfg demoDate _ _ _ "/r" "P" "I" rfl rfl rfl rfl rfl rfl
      ["", "r", "P", "I", "2025_1Q", "030.調査", "調査検討書_P_I.xlsx"]
      (Entry.text ("Dummy Excel Content (Fallback) - 調査検討書_P_I.xlsx\n" ++ "Error: boom\n"))
      (by decide)).symm⟩

/-- C9 counterexample: two successfully written rich artifacts of the
same run share the (title, project, item) triple (`("CL", "P", "I")`,
both review checklists) yet have different cell contents — the A1 cell
embeds the file name, so content is not determined by the triple alone. -/
theorem claim_C9_counterexample :
    Op.write ["", "r", "P", "I", "2025_1Q", "030.調査", "成果物", "内部レビュー", "20250208",
        "レビューチェックリスト_030_社内_1回目_P_I.xlsx"]
      (Entry.excel (TestPy.excelCells 2 "CL" "P" "I" "レビューチェックリスト_030_社内_1回目_P_I.xlsx"))
      ∈ (TestPy.create_sample_teams_structure noFail demoCfg demoDate).1
    ∧ Op.write ["", "r", "P", "I", "2025_1Q", "040.設計", "成果物", "内部レビュー", "20250208",
        "レビューチェックリスト_040_社内_1回目_P_I.xlsx"]
      (Entry.excel (TestPy.excelCells 2 "CL" "P" "I" "レビューチェックリスト_040_社内_1回目_P_I.xlsx"))
      ∈ (TestPy.create_sample_teams_structure noFail demoCfg demoDate).1
    ∧ TestPy.excelCells 2 "CL" "P" "I" "レビューチェックリスト_030_社内_1回目_P_I.xlsx"
      ≠ TestPy.excelCells 2 "CL" "P" "I" "レビューチェックリスト_040_社内_1回目_P_I.xlsx" := by
  refine ⟨by decide, by decide, by decide⟩

/-- C9 amended: re-applying one run's operations to its own output
changes nothing (idempotent regeneration: the second run overwrites, it
creates no new paths and never fails), and the content of every written
artifact is determined by its kind, title, project, item and destination
file name (`dummyEntry` is a function of exactly those). -/
theorem claim_C9_amended :
    (∀ (fail : Fail) (cfg : Config) (today : PyDate) (fs : FS),
      applyOps (applyOps fs (TestPy.create_sample_teams_structure fail cfg today).1)
          (TestPy.create_sample_teams_structure fail cfg today).1
        = applyOps fs (TestPy.create_sample_teams_structure fail cfg today).1)
    ∧ (∀ (fail : Fail) (cfg : Config) (today : PyDate)
      (ps pj ts : List (String × String)) (r P I : String),
      cfg.paths = some ps → secGet ps "sample_teams_root" = some r →
      cfg.project = some pj → secGet pj "project_name" = some P →
      secGet pj "item_name" = some I → cfg.title = some ts →
      ∀ p e, Op.write p e ∈ (TestPy.create_sample_teams_structure fail cfg today).1 →
        ∃ ty title, e = TestPy.dummyEntry fail ty title P I p) := by
  constructor
  · intro fail cfg today fs
    exact applyOps_idem (TestPy.create_sample_teams_structure fail cfg today).1 fs
  · intro fail cfg today ps pj ts r P I h1 h2 h3 h4 h5 h6 p e hmem
    obtain ⟨ty, title, pre, he, _⟩ :=
      TestPy.goodWrites_run fail cfg today ps pj ts r P I h1 h2 h3 h4 h5 h6 p e hmem
    exact ⟨ty, title, he⟩

/-- Witness for the amended C9 at a concrete run, filesystem and write. -/
theorem claim_C9_amended_witness :
    (applyOps (applyOps emptyFS (TestPy.create_sample_teams_structure noFail demoCfg
          demoDate).1) (TestPy.create_sample_teams_structure noFail demoCfg demoDate).1
      = applyOps emptyFS (TestPy.create_sample_teams_structure noFail demoCfg demoDate).1)
    ∧ (∃ ty title, Entry.excel (TestPy.excelCells 1 "T" "P" "I" "調査検討書_P_I.xlsx")
        = TestPy.dummyEntry noFail ty title "P" "I"
          ["", "r", "P", "I", "2025_1Q", "030.調査", "調査検討書_P_I.xlsx"]) :=
  ⟨claim_C9_amended.1 noFail demoCfg demoDate emptyFS,
   claim_C9_amended.2 noFail demoCfg demoDate _ _ _ "/r" "P" "I" rfl rfl rfl rfl rfl rfl
     ["", "r", "P", "I", "2025_1Q", "030.調査", "調査検討書_P_I.xlsx"]
     (Entry.excel (TestPy.excelCells 1 "T" "P" "I" "調査検討書_P_I.xlsx")) (by decide)⟩

/-- C10: `create_empty_excel_file` of `create_sample_teams_structure.py`
never aborts on an invalid `type`: called (as everywhere in that script)
with the integer `1`, its validation raises a `TypeError` (the type is
not a string) which is caught and only logged, after which the workbook
is still created and saved at the destination — and because `type == 1`
still holds, the main-document B5 cell is written.  The whole script,
run with every required title key present, completes and stores exactly
these main-document workbooks. -/
theorem claim_C10_type_validation (fail : Fail) (title project item : String)
    (p : List String) (hfp : fail p = none) :
    (CstsPy.create_empty_excel_file fail (.int 1) title project item p).validation
      = some "ファイル種別：typeは文字列で指定してください。"
    ∧ (CstsPy.create_empty_excel_file fail (.int 1) title project item p).ops
      = [Op.write p (Entry.excel [("B5", title ++ "¥n" ++ project ++ "¥n" ++ item)])]
    ∧ (CstsPy.create_sample_teams_structure noFail c10Cfg demoDate).2 = Outcome.completed
    ∧ Op.write ["", "r", "P", "I", "2025_1Q", "030.調査", "調査検討書_P_I.xlsx"]
        (Entry.excel (CstsPy.cells (.int 1) "TR" "P" "I"))
        ∈ (CstsPy.create_sample_teams_structure noFail c10Cfg demoDate).1 := by
  refine ⟨?_, ?_, by decide, by decide⟩
  · simp [CstsPy.create_empty_excel_file, hfp, CstsPy.validationError, CstsPy.pyIsStr]
  · simp [CstsPy.create_empty_excel_file, hfp, CstsPy.cells, CstsPy.pyEqInt,
      CstsPy.validationError]

/-- Witness for C10 at a concrete successful write. -/
theorem claim_C10_type_validation_witness :
    (CstsPy.create_empty_excel_file noFail (.int 1) "t" "pr" "it" ["f.xlsx"]).validation
      = some "ファイル種別：typeは文字列で指定してください。" :=
  (claim_C10_type_validation noFail "t" "pr" "it" ["f.xlsx"] rfl).1
